import Mathlib

/-!
Verification development for the A2DP codec configuration module
(`system/stack/a2dp/a2dp_codec_config.cc`).

The translation unit defines three layers:

* `A2dpCodecConfig` — one descriptor per codec variant, with the snapshot
  set (`codec_config_`, `codec_capability_`, `codec_user_config_`,
  `codec_audio_config_`, the OTA byte buffers) and the user-config merge
  algorithm `setCodecUserConfig`;
* `A2dpCodecs` — the registry owning the descriptors, the priority-ordered
  source/sink lists, the current-codec selection state machine
  (`setCodecUserConfig`, `setCodecOtaConfig`);
* the capability dispatch functions (`A2DP_IsSourceCodecValid`,
  `A2DP_CodecName`, `A2DP_SourceCodecIndex`, …) and the hardware-offload
  encoder `getCodecSpecificConfig`.

Per-codec routines that live in other translation units
(`A2DP_IsSourceCodecValidSbc`, the virtual `setCodecConfig`
implementations, vendor-header numeric constants, …) are taken as explicit
parameters of the embedding, so every theorem quantifies over them; the
control flow proved about is exactly the control flow of this file.

Byte buffers are lists of `Nat` (each entry one octet); reading past the
end yields 0, matching the zero-initialised fixed-size C arrays.
-/

/-- Reads byte `i` of a buffer; fixed-size arrays in the source are
zero-initialised, so out-of-range reads give 0. -/
def byteAt (l : List Nat) (i : Nat) : Nat := l.getD i 0

/-- One `btav_a2dp_codec_config_t` record: codec type/index, priority,
sample rate, bits per sample, channel mode and the four codec-specific
`int64_t` fields.  The rate/bits/mode fields are bit-mask enumerations
(`NONE` is 0); the priority is an `Int` (`DISABLED` is -1, `DEFAULT` 0). -/
structure BtavCodecConfig where
  codec_type : Nat
  codec_priority : Int
  sample_rate : Nat
  bits_per_sample : Nat
  channel_mode : Nat
  codec_specific_1 : Int
  codec_specific_2 : Int
  codec_specific_3 : Int
  codec_specific_4 : Int
  deriving Repr, DecidableEq

/-- `BTAV_A2DP_CODEC_PRIORITY_DEFAULT` (value 0). -/
def BTAV_A2DP_CODEC_PRIORITY_DEFAULT : Int := 0

/-- `BTAV_A2DP_CODEC_SAMPLE_RATE_NONE` / `BITS_PER_SAMPLE_NONE` /
`CHANNEL_MODE_NONE` are all the empty bit mask 0. -/
def BTAV_A2DP_CODEC_NONE : Nat := 0

/-- Modelled from the spec: the codec-type tag byte sits immediately after
the media-type header octet.  The source file itself fixes
`A2DP_MEDIA_TYPE_OFFSET` to 1 and reads SBC parameters at offsets 3..6, so
the tag offset (`AVDT_CODEC_TYPE_INDEX`, declared in the AVDTP headers that
are not part of this translation unit) is 2. -/
def AVDT_CODEC_TYPE_INDEX : Nat := 2

/-- `A2DP_MEDIA_TYPE_OFFSET`, defined in the source file. -/
def A2DP_MEDIA_TYPE_OFFSET : Nat := 1

/-- Media codec type tag for SBC (Bluetooth SIG assigned value 0). -/
def A2DP_MEDIA_CT_SBC : Nat := 0

/-- Media codec type tag for MPEG-2,4 AAC (Bluetooth SIG assigned value 2). -/
def A2DP_MEDIA_CT_AAC : Nat := 2

/-- Media codec type tag for vendor-specific codecs (0xFF). -/
def A2DP_MEDIA_CT_NON_A2DP : Nat := 255

/-- `A2DP_GetCodecType`: reads the codec-type tag byte of a codec-info
buffer. -/
def A2DP_GetCodecType (p_codec_info : List Nat) : Nat :=
  byteAt p_codec_info AVDT_CODEC_TYPE_INDEX

/-- The per-codec routines the dispatch layer forwards to.  They are
implemented in other translation units (`a2dp_sbc.cc`, `a2dp_aac.cc`,
`a2dp_vendor*.cc`), so the embedding takes them as parameters, together
with the two codec-index enumeration bounds from `bt_av.h`. -/
structure A2dpExt where
  isSourceCodecValidSbc : List Nat → Bool
  isSourceCodecValidAac : List Nat → Bool
  isVendorSourceCodecValid : List Nat → Bool
  isSinkCodecValidSbc : List Nat → Bool
  isSinkCodecValidAac : List Nat → Bool
  isVendorSinkCodecValid : List Nat → Bool
  isPeerSourceCodecValidSbc : List Nat → Bool
  isPeerSourceCodecValidAac : List Nat → Bool
  isVendorPeerSourceCodecValid : List Nat → Bool
  isPeerSinkCodecValidSbc : List Nat → Bool
  isPeerSinkCodecValidAac : List Nat → Bool
  isVendorPeerSinkCodecValid : List Nat → Bool
  codecEqualsSbc : List Nat → List Nat → Bool
  codecEqualsAac : List Nat → List Nat → Bool
  vendorCodecEquals : List Nat → List Nat → Bool
  codecNameSbc : List Nat → String
  codecNameAac : List Nat → String
  vendorCodecName : List Nat → String
  getTrackSampleRateSbc : List Nat → Int
  getTrackSampleRateAac : List Nat → Int
  vendorGetTrackSampleRate : List Nat → Int
  sourceCodecIndexSbc : List Nat → Nat
  sourceCodecIndexAac : List Nat → Nat
  vendorSourceCodecIndex : List Nat → Nat
  vendorUsesRtpHeader : Bool → List Nat → Bool
  codecIndexMax : Nat
  codecIndexSourceMax : Nat

/-- `A2DP_IsSourceCodecValid`: dispatch on the codec-type tag. -/
def A2DP_IsSourceCodecValid (ext : A2dpExt) (p_codec_info : List Nat) : Bool :=
  let codec_type := A2DP_GetCodecType p_codec_info
  if codec_type = A2DP_MEDIA_CT_SBC then ext.isSourceCodecValidSbc p_codec_info
  else if codec_type = A2DP_MEDIA_CT_AAC then ext.isSourceCodecValidAac p_codec_info
  else if codec_type = A2DP_MEDIA_CT_NON_A2DP then ext.isVendorSourceCodecValid p_codec_info
  else false

/-- `A2DP_IsSinkCodecValid`: dispatch on the codec-type tag. -/
def A2DP_IsSinkCodecValid (ext : A2dpExt) (p_codec_info : List Nat) : Bool :=
  let codec_type := A2DP_GetCodecType p_codec_info
  if codec_type = A2DP_MEDIA_CT_SBC then ext.isSinkCodecValidSbc p_codec_info
  else if codec_type = A2DP_MEDIA_CT_AAC then ext.isSinkCodecValidAac p_codec_info
  else if codec_type = A2DP_MEDIA_CT_NON_A2DP then ext.isVendorSinkCodecValid p_codec_info
  else false

/-- `A2DP_IsPeerSourceCodecValid`: dispatch on the codec-type tag. -/
def A2DP_IsPeerSourceCodecValid (ext : A2dpExt) (p_codec_info : List Nat) : Bool :=
  let codec_type := A2DP_GetCodecType p_codec_info
  if codec_type = A2DP_MEDIA_CT_SBC then ext.isPeerSourceCodecValidSbc p_codec_info
  else if codec_type = A2DP_MEDIA_CT_AAC then ext.isPeerSourceCodecValidAac p_codec_info
  else if codec_type = A2DP_MEDIA_CT_NON_A2DP then ext.isVendorPeerSourceCodecValid p_codec_info
  else false

/-- `A2DP_IsPeerSinkCodecValid`: dispatch on the codec-type tag. -/
def A2DP_IsPeerSinkCodecValid (ext : A2dpExt) (p_codec_info : List Nat) : Bool :=
  let codec_type := A2DP_GetCodecType p_codec_info
  if codec_type = A2DP_MEDIA_CT_SBC then ext.isPeerSinkCodecValidSbc p_codec_info
  else if codec_type = A2DP_MEDIA_CT_AAC then ext.isPeerSinkCodecValidAac p_codec_info
  else if codec_type = A2DP_MEDIA_CT_NON_A2DP then ext.isVendorPeerSinkCodecValid p_codec_info
  else false

/-- `A2DP_CodecEquals`: two buffers are codec-equal when their type tags
agree and the per-family full-equality check accepts them; an unrecognised
tag yields `false`. -/
def A2DP_CodecEquals (ext : A2dpExt) (a b : List Nat) : Bool :=
  let codec_type_a := A2DP_GetCodecType a
  let codec_type_b := A2DP_GetCodecType b
  if codec_type_a ≠ codec_type_b then false
  else if codec_type_a = A2DP_MEDIA_CT_SBC then ext.codecEqualsSbc a b
  else if codec_type_a = A2DP_MEDIA_CT_AAC then ext.codecEqualsAac a b
  else if codec_type_a = A2DP_MEDIA_CT_NON_A2DP then ext.vendorCodecEquals a b
  else false

/-- `A2DP_CodecName`: dispatch; unrecognised tags give the sentinel name. -/
def A2DP_CodecName (ext : A2dpExt) (p_codec_info : List Nat) : String :=
  let codec_type := A2DP_GetCodecType p_codec_info
  if codec_type = A2DP_MEDIA_CT_SBC then ext.codecNameSbc p_codec_info
  else if codec_type = A2DP_MEDIA_CT_AAC then ext.codecNameAac p_codec_info
  else if codec_type = A2DP_MEDIA_CT_NON_A2DP then ext.vendorCodecName p_codec_info
  else "UNKNOWN CODEC"

/-- `A2DP_GetTrackSampleRate`: dispatch; unrecognised tags give -1. -/
def A2DP_GetTrackSampleRate (ext : A2dpExt) (p_codec_info : List Nat) : Int :=
  let codec_type := A2DP_GetCodecType p_codec_info
  if codec_type = A2DP_MEDIA_CT_SBC then ext.getTrackSampleRateSbc p_codec_info
  else if codec_type = A2DP_MEDIA_CT_AAC then ext.getTrackSampleRateAac p_codec_info
  else if codec_type = A2DP_MEDIA_CT_NON_A2DP then ext.vendorGetTrackSampleRate p_codec_info
  else -1

/-- `A2DP_SourceCodecIndex`: dispatch; unrecognised tags give the sentinel
`BTAV_A2DP_CODEC_INDEX_MAX` (the enumeration bound held in `ext`). -/
def A2DP_SourceCodecIndex (ext : A2dpExt) (p_codec_info : List Nat) : Nat :=
  let codec_type := A2DP_GetCodecType p_codec_info
  if codec_type = A2DP_MEDIA_CT_SBC then ext.sourceCodecIndexSbc p_codec_info
  else if codec_type = A2DP_MEDIA_CT_AAC then ext.sourceCodecIndexAac p_codec_info
  else if codec_type = A2DP_MEDIA_CT_NON_A2DP then ext.vendorSourceCodecIndex p_codec_info
  else ext.codecIndexMax

/-- `A2DP_UsesRtpHeader`: every non-vendor tag (known or not) uses the RTP
header; only the vendor tag is delegated to the vendor policy. -/
def A2DP_UsesRtpHeader (ext : A2dpExt) (content_protection_enabled : Bool)
    (p_codec_info : List Nat) : Bool :=
  let codec_type := A2DP_GetCodecType p_codec_info
  if codec_type ≠ A2DP_MEDIA_CT_NON_A2DP then true
  else ext.vendorUsesRtpHeader content_protection_enabled p_codec_info

/-- The mutable state of one `A2dpCodecConfig` descriptor: its codec index,
construction-time default priority, current effective priority, the six
configuration snapshots and the negotiated OTA byte buffer. -/
structure A2dpCodecConfigState where
  codec_index_ : Nat
  default_codec_priority_ : Int
  codec_priority_ : Int
  codec_config_ : BtavCodecConfig
  codec_capability_ : BtavCodecConfig
  codec_local_capability_ : BtavCodecConfig
  codec_selectable_capability_ : BtavCodecConfig
  codec_user_config_ : BtavCodecConfig
  codec_audio_config_ : BtavCodecConfig
  ota_codec_config_ : List Nat
  deriving Repr, DecidableEq

/-- `A2dpCodecConfig::isCodecConfigEmpty`: a snapshot is empty when its
priority is `DEFAULT` and every numeric field is the none/zero sentinel. -/
def A2dpCodecConfig.isCodecConfigEmpty (codec_config : BtavCodecConfig) : Bool :=
  decide (codec_config.codec_priority = BTAV_A2DP_CODEC_PRIORITY_DEFAULT) &&
  decide (codec_config.sample_rate = BTAV_A2DP_CODEC_NONE) &&
  decide (codec_config.bits_per_sample = BTAV_A2DP_CODEC_NONE) &&
  decide (codec_config.channel_mode = BTAV_A2DP_CODEC_NONE) &&
  decide (codec_config.codec_specific_1 = 0) &&
  decide (codec_config.codec_specific_2 = 0) &&
  decide (codec_config.codec_specific_3 = 0) &&
  decide (codec_config.codec_specific_4 = 0)

/-- `A2dpCodecConfig::setDefaultCodecPriority`: the construction-time
priority if it was explicit, otherwise the stable default
`1000 * (codec_index_ + 1) + 1`; mirrored into `codec_config_`. -/
def A2dpCodecConfig.setDefaultCodecPriority (s : A2dpCodecConfigState) :
    A2dpCodecConfigState :=
  let pr : Int :=
    if s.default_codec_priority_ ≠ BTAV_A2DP_CODEC_PRIORITY_DEFAULT then
      s.default_codec_priority_
    else 1000 * ((s.codec_index_ : Int) + 1) + 1
  { s with codec_priority_ := pr
           codec_config_ := { s.codec_config_ with codec_priority := pr } }

/-- `A2dpCodecConfig::setCodecPriority`: `DEFAULT` recomputes the default
priority, any other value is set directly; mirrored into `codec_config_`. -/
def A2dpCodecConfig.setCodecPriority (s : A2dpCodecConfigState)
    (codec_priority : Int) : A2dpCodecConfigState :=
  if codec_priority = BTAV_A2DP_CODEC_PRIORITY_DEFAULT then
    A2dpCodecConfig.setDefaultCodecPriority s
  else
    { s with codec_priority_ := codec_priority
             codec_config_ := { s.codec_config_ with codec_priority := codec_priority } }

/-- What the per-codec virtual `setCodecConfig` produces on success: the new
negotiated `codec_config_`/`codec_capability_` snapshots and the OTA wire
buffer (also copied into the caller's result buffer). -/
structure SetCodecConfigResult where
  codec_config : BtavCodecConfig
  codec_capability : BtavCodecConfig
  ota_codec_config : List Nat
  deriving Repr, DecidableEq

/-- Modelled from the spec: the per-codec virtual
`A2dpCodecConfig::setCodecConfig` implementations live in other translation
units.  Per the spec they read the descriptor state and the peer
capability/config bytes, and either fail leaving the snapshots exactly as
before the call, or succeed updating `config`/`capability`/`ota_config` and
writing the result buffer.  The embedding therefore takes them as a
function of the descriptor state, the peer buffer and the `is_capability`
flag, returning `none` on failure. -/
abbrev SetCodecConfigModel :=
  A2dpCodecConfigState → List Nat → Bool → Option SetCodecConfigResult

/-- The outputs of `A2dpCodecConfig::setCodecUserConfig`: the descriptor
state after the call, the return value, the result buffer (`none` when the
call failed and the out-buffer holds no defined value) and the three
restart/updated flags. -/
structure UserConfigResult where
  state : A2dpCodecConfigState
  success : Bool
  result_codec_config : Option (List Nat)
  restart_input : Bool
  restart_output : Bool
  config_updated : Bool
  deriving Repr, DecidableEq

/-- `A2dpCodecConfig::setCodecUserConfig` (descriptor level): snapshot the
current `codec_config_`/`ota_codec_config_`, install the new user and audio
overrides, re-run `setCodecConfig`; on failure restore the user and audio
overrides and return false.  On success, `restart_input` is set when the
sample rate, bits per sample, channel mode or one of
`codec_specific_1..3` changed, `restart_output` when the new OTA bytes are
not codec-equal to the saved ones, and `config_updated` is their OR. -/
def A2dpCodecConfig.setCodecUserConfig (ext : A2dpExt) (scc : SetCodecConfigModel)
    (s : A2dpCodecConfigState)
    (codec_user_config codec_audio_config : BtavCodecConfig)
    (p_peer_codec_info : List Nat) (is_capability : Bool) : UserConfigResult :=
  let saved_codec_config := s.codec_config_
  let saved_ota_codec_config := s.ota_codec_config_
  let saved_codec_user_config := s.codec_user_config_
  let saved_codec_audio_config := s.codec_audio_config_
  let s1 := { s with codec_user_config_ := codec_user_config
                     codec_audio_config_ := codec_audio_config }
  match scc s1 p_peer_codec_info is_capability with
  | none =>
      { state := { s1 with codec_user_config_ := saved_codec_user_config
                           codec_audio_config_ := saved_codec_audio_config }
        success := false
        result_codec_config := none
        restart_input := false
        restart_output := false
        config_updated := false }
  | some r =>
      let s2 := { s1 with codec_config_ := r.codec_config
                          codec_capability_ := r.codec_capability
                          ota_codec_config_ := r.ota_codec_config }
      let new_codec_config := s2.codec_config_
      let restart_input :=
        decide (saved_codec_config.sample_rate ≠ new_codec_config.sample_rate) ||
        decide (saved_codec_config.bits_per_sample ≠ new_codec_config.bits_per_sample) ||
        decide (saved_codec_config.channel_mode ≠ new_codec_config.channel_mode) ||
        decide (saved_codec_config.codec_specific_1 ≠ new_codec_config.codec_specific_1) ||
        decide (saved_codec_config.codec_specific_2 ≠ new_codec_config.codec_specific_2) ||
        decide (saved_codec_config.codec_specific_3 ≠ new_codec_config.codec_specific_3)
      let restart_output :=
        ! A2DP_CodecEquals ext saved_ota_codec_config r.ota_codec_config
      { state := s2
        success := true
        result_codec_config := some r.ota_codec_config
        restart_input := restart_input
        restart_output := restart_output
        config_updated := restart_input || restart_output }

/-- The state of the `A2dpCodecs` registry: the enabled descriptors as a
map from codec index to descriptor state (the C++ `indexed_codecs_`
`std::map` with its owned `A2dpCodecConfig*` values), the two
priority-ordered lists of codec indices (non-owning pointers in the
source), and the current codec selection (a possibly-null pointer). -/
structure A2dpCodecsState where
  indexed_codecs_ : Nat → Option A2dpCodecConfigState
  ordered_source_codecs_ : List Nat
  ordered_sink_codecs_ : List Nat
  current_codec_config_ : Option Nat

/-- Replaces the descriptor stored under key `i` (in-place mutation of the
object the map's pointer refers to). -/
def storeIndexed (m : Nat → Option A2dpCodecConfigState) (i : Nat)
    (d : A2dpCodecConfigState) : Nat → Option A2dpCodecConfigState :=
  fun j => if j = i then some d else m j

/-- The priority `compare_codec_priority` reads through a descriptor
pointer; an absent key (impossible in the C++ object graph, where the
lists hold live pointers) defaults to 0. -/
def codecPriorityIn (m : Nat → Option A2dpCodecConfigState) (i : Nat) : Int :=
  match m i with
  | some d => d.codec_priority_
  | none => 0

/-- The codec index `compare_codec_priority` reads through a descriptor
pointer; an absent key defaults to the key itself. -/
def codecIndexIn (m : Nat → Option A2dpCodecConfigState) (i : Nat) : Nat :=
  match m i with
  | some d => d.codec_index_
  | none => i

/-- `compare_codec_priority`: `lhs` sorts before `rhs` when its priority
value is larger; priority ties are broken by the larger codec index. -/
def compare_codec_priority (m : Nat → Option A2dpCodecConfigState)
    (lhs rhs : Nat) : Bool :=
  if codecPriorityIn m lhs > codecPriorityIn m rhs then true
  else if codecPriorityIn m lhs < codecPriorityIn m rhs then false
  else decide (codecIndexIn m lhs > codecIndexIn m rhs)

/-- Inserts `a` into a list sorted by the strict comparator `lt`, after
every element that must precede it. -/
def insertSorted (lt : Nat → Nat → Bool) (a : Nat) : List Nat → List Nat
  | [] => [a]
  | b :: bs => if lt b a then b :: insertSorted lt a bs else a :: b :: bs

/-- `std::list::sort` with a strict comparator, as an insertion sort (only
the sortedness of the result is used). -/
def sortByCmp (lt : Nat → Nat → Bool) : List Nat → List Nat
  | [] => []
  | a :: as => insertSorted lt a (sortByCmp lt as)

/-- A list of codec indices is sorted by `compare_codec_priority` over the
descriptor map `m` when no adjacent pair is inverted. -/
def SortedByPriority (m : Nat → Option A2dpCodecConfigState) (l : List Nat) : Prop :=
  List.Chain' (fun a b => compare_codec_priority m b a = false) l

/-- Executable check that no adjacent pair of a list is inverted under the
strict comparator `lt`. -/
def sortedChainB (lt : Nat → Nat → Bool) : List Nat → Bool
  | [] => true
  | [_] => true
  | a :: b :: rest => (! lt b a) && sortedChainB lt (b :: rest)

/-- `sortedChainB` decides the adjacent-pair chain property. -/
theorem sortedChainB_iff (lt : Nat → Nat → Bool) (l : List Nat) :
    sortedChainB lt l = true ↔ List.Chain' (fun x y => lt y x = false) l := by
  induction l with
  | nil => simp [sortedChainB]
  | cons a as ih =>
    cases as with
    | nil => simp [sortedChainB]
    | cons b rest =>
      simp [sortedChainB, List.chain'_cons, ← ih, Bool.and_eq_true, Bool.not_eq_true']

instance (m : Nat → Option A2dpCodecConfigState) (l : List Nat) :
    Decidable (SortedByPriority m l) :=
  decidable_of_iff (sortedChainB (compare_codec_priority m) l = true)
    (sortedChainB_iff (compare_codec_priority m) l)

/-- The outputs of a registry-level configuration call: the registry state
after the call, the return value and the three flags. -/
structure RegistryResult where
  state : A2dpCodecsState
  success : Bool
  restart_input : Bool
  restart_output : Bool
  config_updated : Bool

/-- The priority-reconciliation block of `A2dpCodecs::setCodecUserConfig`
(the `do { … } while (false)` statement): given the descriptor map after
the target's priority update, the previous current codec, the target, the
old and recomputed priorities and the flags produced by the descriptor
call, returns the updated map, the new current selection and the flags. -/
def prioritySelectionStep (m : Nat → Option A2dpCodecConfigState)
    (last : Option Nat) (t : Nat) (old_priority new_priority : Int)
    (ri ro cu : Bool) :
    (Nat → Option A2dpCodecConfigState) × Option Nat × Bool × Bool × Bool :=
  match last with
  | none => (m, some t, true, true, cu)
  | some l =>
    if t = l then
      if new_priority = old_priority then (m, last, ri, ro, cu)
      else (m, last, ri, (if new_priority < old_priority then true else ro), true)
    else if new_priority ≤ old_priority then
      (m, last, false, false,
        (if ri || ro || decide (old_priority ≠ new_priority) then true else cu))
    else
      if new_priority ≥ codecPriorityIn m l then
        let m2 :=
          match m l with
          | some dl => storeIndexed m l (A2dpCodecConfig.setDefaultCodecPriority dl)
          | none => m
        (m2, some t, true, true, true)
      else (m, last, ri, ro, true)

/-- The common success tail of `A2dpCodecs::setCodecUserConfig`: re-sort
the source list with `compare_codec_priority` over the final descriptor
map, and force `config_updated` when either restart flag is set. -/
def finishUserConfig (st : A2dpCodecsState)
    (m : Nat → Option A2dpCodecConfigState) (cur : Option Nat)
    (ri ro cu : Bool) : RegistryResult :=
  { state := { st with indexed_codecs_ := m
                       current_codec_config_ := cur
                       ordered_source_codecs_ :=
                         sortByCmp (compare_codec_priority m) st.ordered_source_codecs_ }
    success := true
    restart_input := ri
    restart_output := ro
    config_updated := if ri || ro then true else cu }

/-- The target-resolution step of `A2dpCodecs::setCodecUserConfig`
(source lines 1472-1480): an explicit codec type below the enumeration
bound resolves through `indexed_codecs_` (failing when not enabled); an
out-of-range type means "update the default codec", i.e. the current
one. -/
def resolveTargetCodec (ext : A2dpExt) (st : A2dpCodecsState) (ct : Nat) :
    Option Nat :=
  if ct < ext.codecIndexMax then
    match st.indexed_codecs_ ct with
    | some _ => some ct
    | none => none
  else st.current_codec_config_

/-- `A2dpCodecs::setCodecUserConfig` (registry level): resolve the target
descriptor (the explicit `codec_type` if in range and enabled, else the
current codec), delegate to the descriptor's `setCodecUserConfig` reusing
its audio config, then run the priority-reconciliation block, re-sort the
source list and return; every failure path restores
`current_codec_config_` to its pre-call value. -/
def A2dpCodecs.setCodecUserConfig (ext : A2dpExt) (scc : SetCodecConfigModel)
    (st : A2dpCodecsState) (codec_user_config : BtavCodecConfig)
    (p_peer_sink_capabilities : List Nat) : RegistryResult :=
  let last_codec_config := st.current_codec_config_
  let fail : RegistryResult :=
    { state := { st with current_codec_config_ := last_codec_config }
      success := false
      restart_input := false
      restart_output := false
      config_updated := false }
  match resolveTargetCodec ext st codec_user_config.codec_type with
  | none => fail
  | some t =>
    match st.indexed_codecs_ t with
    | none => fail
    | some d =>
      let codec_audio_config := d.codec_audio_config_
      let r := A2dpCodecConfig.setCodecUserConfig ext scc d codec_user_config
          codec_audio_config p_peer_sink_capabilities true
      if r.success = false then
        { fail with state := { fail.state with
            indexed_codecs_ := storeIndexed st.indexed_codecs_ t r.state } }
      else
        let m1 := storeIndexed st.indexed_codecs_ t r.state
        let old_priority := r.state.codec_priority_
        let d1 := A2dpCodecConfig.setCodecPriority r.state codec_user_config.codec_priority
        let new_priority := d1.codec_priority_
        let m2 := storeIndexed m1 t d1
        let step := prioritySelectionStep m2 last_codec_config t old_priority
            new_priority r.restart_input r.restart_output r.config_updated
        finishUserConfig st step.1 step.2.1 step.2.2.1 step.2.2.2.1 step.2.2.2.2

/-- `A2dpCodecs::setCodecOtaConfig`: a peer-initiated (non-capability)
configuration is rejected when the current codec has a non-empty user
config, when the peer buffer's codec type is invalid or not enabled, or
when the same-type descriptor has a non-empty user config; otherwise the
target becomes current and the descriptor-level call is delegated to with
the existing user and audio configs.  Every failure path restores
`current_codec_config_`. -/
def A2dpCodecs.setCodecOtaConfig (ext : A2dpExt) (scc : SetCodecConfigModel)
    (st : A2dpCodecsState) (p_ota_codec_config : List Nat) : RegistryResult :=
  let last_codec_config := st.current_codec_config_
  let fail : RegistryResult :=
    { state := { st with current_codec_config_ := last_codec_config }
      success := false
      restart_input := false
      restart_output := false
      config_updated := false }
  let current_user_blocked : Bool :=
    match last_codec_config with
    | some c =>
      match st.indexed_codecs_ c with
      | some dc => ! A2dpCodecConfig.isCodecConfigEmpty dc.codec_user_config_
      | none => false
    | none => false
  if current_user_blocked then fail
  else
    let codec_type := A2DP_SourceCodecIndex ext p_ota_codec_config
    if codec_type = ext.codecIndexMax then fail
    else
      match st.indexed_codecs_ codec_type with
      | none => fail
      | some d =>
        if ! A2dpCodecConfig.isCodecConfigEmpty d.codec_user_config_ then fail
        else
          let codec_user_config := d.codec_user_config_
          let codec_audio_config := d.codec_audio_config_
          let r := A2dpCodecConfig.setCodecUserConfig ext scc d codec_user_config
              codec_audio_config p_ota_codec_config false
          if r.success = false then
            { fail with state := { fail.state with
                indexed_codecs_ := storeIndexed st.indexed_codecs_ codec_type r.state } }
          else
            { state := { st with
                indexed_codecs_ := storeIndexed st.indexed_codecs_ codec_type r.state
                current_codec_config_ := some codec_type }
              success := true
              restart_input := r.restart_input
              restart_output := r.restart_output
              config_updated :=
                if r.restart_input || r.restart_output then true else r.config_updated }

/-- Modelled from the spec: the vendor codec ID layout — a 4-byte
little-endian vendor ID at fixed offsets 3..6 of the information element
(`A2DP_VendorCodecGetVendorId`, implemented in `a2dp_vendor.cc`). -/
def A2DP_VendorCodecGetVendorId (p_codec_info : List Nat) : Nat :=
  byteAt p_codec_info 3 + 256 * byteAt p_codec_info 4 +
  65536 * byteAt p_codec_info 5 + 16777216 * byteAt p_codec_info 6

/-- Modelled from the spec: the 2-byte little-endian codec ID at fixed
offsets 7..8 (`A2DP_VendorCodecGetCodecId`, implemented in
`a2dp_vendor.cc`). -/
def A2DP_VendorCodecGetCodecId (p_codec_info : List Nat) : Nat :=
  byteAt p_codec_info 7 + 256 * byteAt p_codec_info 8

/-- The numeric constants of the LDAC and LHDC vendor headers
(`a2dp_vendor_ldac.h`, `a2dp_vendor_lhdcv2/v3/v5.h`) used by the offload
encoder.  These headers are not part of this translation unit, so the
constants are parameters of the embedding. -/
structure LhdcConsts where
  ldacVendorId : Nat
  ldacCodecId : Nat
  ldacQualityAbrOffload : Nat
  ldacQualityHigh : Nat
  ldacQualityMid : Nat
  ldacQualityLow : Nat
  lhdcVendorId : Nat
  lhdcv2CodecId : Nat
  lhdcv3CodecId : Nat
  lhdcv5CodecId : Nat
  lhdcVersionMask : Nat
  lhdcVer2 : Nat
  lhdcVer3 : Nat
  lhdcVer6 : Nat
  lhdcFeatureLlac : Nat
  lhdcFeatureLhdcv4 : Nat
  offCfgVer : Nat
  offV3Llac : Nat
  offV3V4Only : Nat
  offV3V3Only : Nat
  offV2Ver1 : Nat
  offV5Ver1 : Nat
  lhdcQualityLow0 : Nat
  lhdcQualityLow1 : Nat
  lhdcQualityLow2 : Nat
  lhdcQualityLow3 : Nat
  lhdcQualityLow4 : Nat
  lhdcQualityLow : Nat
  lhdcQualityMid : Nat
  lhdcQualityHigh : Nat
  lhdcQualityHigh1 : Nat
  lhdcQualityAbr : Nat
  offQualityLow0 : Nat
  offQualityLow1 : Nat
  offQualityLow2 : Nat
  offQualityLow3 : Nat
  offQualityLow4 : Nat
  offQualityLow : Nat
  offQualityMid : Nat
  offQualityHigh : Nat
  offQualityHigh1 : Nat
  offQualityAbr : Nat
  offBitrateL : Nat
  offBitrateH : Nat
  lhdcMaxBitRateMask : Nat
  lhdcMaxBitRate400k : Nat
  lhdcMaxBitRate500k : Nat
  offMaxBitrateL : Nat
  offMaxBitrateH : Nat
  lhdcFeatureMinBr : Nat
  offMinBitrateL : Nat
  offMinBitrateH : Nat
  lhdcLlMask : Nat
  offInterval : Nat
  dataInterval10ms : Nat
  dataInterval20ms : Nat
  lhdcFeatureAr : Nat
  lhdcFeatureJas : Nat
  lhdcFeatureMeta : Nat
  offSpec1 : Nat
  specFeatureAr : Nat
  specFeatureJas : Nat
  specFeatureMeta : Nat
  lhdcChSplitMask : Nat
  lhdcChSplitNone : Nat
  lhdcChSplitTws : Nat
  offSpec2 : Nat
  specFeatureSplit : Nat
  lhdcv5VersionMask : Nat
  lhdcv5Ver1 : Nat
  lhdcv5MaxBitRateMask : Nat
  lhdcv5MaxBitRate400k : Nat
  lhdcv5MaxBitRate500k : Nat
  lhdcv5MaxBitRate900k : Nat
  lhdcv5MinBitRateMask : Nat
  lhdcv5MinBitRate64k : Nat
  lhdcv5MinBitRate128k : Nat
  lhdcv5MinBitRate256k : Nat
  lhdcv5FrameLenMask : Nat
  offFrameDur : Nat
  frameDuration5000us : Nat
  lhdcv5FeatureLl : Nat
  lhdcv5FeatureAr : Nat
  lhdcv5FeatureJas : Nat
  lhdcv5FeatureMeta : Nat
  lhdcv5ArOn : Nat
  specActionArOn : Nat

/-- Writes a 16-bit tier constant as its low byte at `lo` and high byte at
`hi` (the `A2DP_OFFLOAD_LHDC_CFG_BITRATE_L/_H` pattern). -/
def writeU16 (l : List Nat) (lo hi v : Nat) : List Nat :=
  (l.set lo (v &&& 255)).set hi ((v >>> 8) &&& 255)

/-- ORs `v` into byte `i` of the offload buffer (the `|=` writes). -/
def orByte (l : List Nat) (i v : Nat) : List Nat :=
  l.set i (byteAt l i ||| v)

/-- The LHDC bitrate-index switch shared by the V3 and V2 branches: maps
the low nibble of `codec_specific_1` onto the offload tier constants;
`HIGH1` is not supported by these revisions and falls back to `HIGH`;
everything unrecognised maps to `ABR`. -/
def lhdcBitrateQualityV3 (vc : LhdcConsts) (q : Nat) : Nat :=
  if q = vc.lhdcQualityLow0 then vc.offQualityLow0
  else if q = vc.lhdcQualityLow1 then vc.offQualityLow1
  else if q = vc.lhdcQualityLow2 then vc.offQualityLow2
  else if q = vc.lhdcQualityLow3 then vc.offQualityLow3
  else if q = vc.lhdcQualityLow4 then vc.offQualityLow4
  else if q = vc.lhdcQualityLow then vc.offQualityLow
  else if q = vc.lhdcQualityMid then vc.offQualityMid
  else if q = vc.lhdcQualityHigh then vc.offQualityHigh
  else if q = vc.lhdcQualityHigh1 then vc.offQualityHigh
  else if q = vc.lhdcQualityAbr then vc.offQualityAbr
  else vc.offQualityAbr

/-- The LHDC V5 bitrate-index switch: as `lhdcBitrateQualityV3` but with a
native `HIGH1` tier. -/
def lhdcBitrateQualityV5 (vc : LhdcConsts) (q : Nat) : Nat :=
  if q = vc.lhdcQualityLow0 then vc.offQualityLow0
  else if q = vc.lhdcQualityLow1 then vc.offQualityLow1
  else if q = vc.lhdcQualityLow2 then vc.offQualityLow2
  else if q = vc.lhdcQualityLow3 then vc.offQualityLow3
  else if q = vc.lhdcQualityLow4 then vc.offQualityLow4
  else if q = vc.lhdcQualityLow then vc.offQualityLow
  else if q = vc.lhdcQualityMid then vc.offQualityMid
  else if q = vc.lhdcQualityHigh then vc.offQualityHigh
  else if q = vc.lhdcQualityHigh1 then vc.offQualityHigh1
  else if q = vc.lhdcQualityAbr then vc.offQualityAbr
  else vc.offQualityAbr

/-- The LDAC branch of `getCodecSpecificConfig`: quality tier from
`codec_specific_1` (0 means ABR, otherwise the C-truncated remainder mod
10 selects high/mid/low/ABR) and the LDAC channel mode byte from wire
byte 10.  `Int.tmod` is the C `%` (truncation toward zero). -/
def ldacOffload (vc : LhdcConsts) (codec_specific_1 : Int)
    (codec_config ci : List Nat) : Bool × List Nat :=
  let q :=
    if codec_specific_1 = 0 then vc.ldacQualityAbrOffload
    else
      let r := Int.tmod codec_specific_1 10
      if r = 0 then vc.ldacQualityHigh
      else if r = 1 then vc.ldacQualityMid
      else if r = 2 then vc.ldacQualityLow
      else vc.ldacQualityAbrOffload
  (true, (ci.set 6 q).set 7 (byteAt codec_config 10))

/-- The unconditional writes of the LHDC V3 branch of
`getCodecSpecificConfig`: version flavour, bitrate tier, max/min bitrate
tiers, data interval and feature bits.  The low nibble
`codec_specific_1 & 0x0F` of the C `int64_t` is the nonnegative remainder
mod 16. -/
def lhdcV3Pack (vc : LhdcConsts) (codec_specific_1 : Int)
    (codec_config ci : List Nat) : List Nat :=
  let b9 := byteAt codec_config 9
  let b10 := byteAt codec_config 10
  let b11 := byteAt codec_config 11
  let verByte :=
    if (b10 &&& vc.lhdcFeatureLlac) ≠ 0 ∧ (b11 &&& vc.lhdcFeatureLhdcv4) = 0 then
      2 ^ (vc.offV3Llac - 1)
    else if (b10 &&& vc.lhdcFeatureLlac) = 0 ∧ (b11 &&& vc.lhdcFeatureLhdcv4) ≠ 0 then
      2 ^ (vc.offV3V4Only - 1)
    else if (b10 &&& vc.lhdcFeatureLlac) = 0 ∧ (b11 &&& vc.lhdcFeatureLhdcv4) = 0 then
      2 ^ (vc.offV3V3Only - 1)
    else 2 ^ (vc.offV3V3Only - 1)
  let ci1 := ci.set vc.offCfgVer verByte
  let ci2 := writeU16 ci1 vc.offBitrateL vc.offBitrateH
      (lhdcBitrateQualityV3 vc (codec_specific_1 % 16).toNat)
  let mq :=
    if (b10 &&& vc.lhdcMaxBitRateMask) = vc.lhdcMaxBitRate400k then vc.offQualityLow
    else if (b10 &&& vc.lhdcMaxBitRateMask) = vc.lhdcMaxBitRate500k then vc.offQualityMid
    else vc.offQualityHigh
  let ci3 := writeU16 ci2 vc.offMaxBitrateL vc.offMaxBitrateH mq
  let nq :=
    if (b11 &&& vc.lhdcFeatureMinBr) = vc.lhdcFeatureMinBr then vc.offQualityLow4
    else vc.offQualityLow1
  let ci4 := writeU16 ci3 vc.offMinBitrateL vc.offMinBitrateH nq
  let ci5 := ci4.set vc.offInterval
      (if (b10 &&& vc.lhdcLlMask) ≠ 0 then vc.dataInterval10ms else vc.dataInterval20ms)
  let ci6 := if (b9 &&& vc.lhdcFeatureAr) ≠ 0 then orByte ci5 vc.offSpec1 vc.specFeatureAr else ci5
  let ci7 := if (b9 &&& vc.lhdcFeatureJas) ≠ 0 then orByte ci6 vc.offSpec1 vc.specFeatureJas else ci6
  if (b11 &&& vc.lhdcFeatureMeta) ≠ 0 then orByte ci7 vc.offSpec1 vc.specFeatureMeta else ci7

/-- The LHDC V3 branch of `getCodecSpecificConfig`: fails for a version
nibble that is neither VER3 nor VER6 and for a split mode that is neither
NONE nor TWS; otherwise performs the `lhdcV3Pack` writes plus the split
byte. -/
def lhdcV3Offload (vc : LhdcConsts) (codec_specific_1 : Int)
    (codec_config ci : List Nat) : Bool × List Nat :=
  let b10 := byteAt codec_config 10
  let b11 := byteAt codec_config 11
  if (b10 &&& vc.lhdcVersionMask) ≠ vc.lhdcVer3 ∧
     (b10 &&& vc.lhdcVersionMask) ≠ vc.lhdcVer6 then (false, ci)
  else
    let ci8 := lhdcV3Pack vc codec_specific_1 codec_config ci
    if (b11 &&& vc.lhdcChSplitMask) = vc.lhdcChSplitNone then (true, ci8.set vc.offSpec2 0)
    else if (b11 &&& vc.lhdcChSplitMask) = vc.lhdcChSplitTws then
      (true, orByte ci8 vc.offSpec2 vc.specFeatureSplit)
    else (false, ci8)

/-- The unconditional writes of the LHDC V2 branch: version, bitrate tier,
max bitrate tier and data interval; min-bitrate, frame duration and the
feature byte are not supported by this revision. -/
def lhdcV2Pack (vc : LhdcConsts) (codec_specific_1 : Int)
    (codec_config ci : List Nat) : List Nat :=
  let b10 := byteAt codec_config 10
  let ci1 := ci.set vc.offCfgVer (2 ^ (vc.offV2Ver1 - 1))
  let ci2 := writeU16 ci1 vc.offBitrateL vc.offBitrateH
      (lhdcBitrateQualityV3 vc (codec_specific_1 % 16).toNat)
  let mq :=
    if (b10 &&& vc.lhdcMaxBitRateMask) = vc.lhdcMaxBitRate400k then vc.offQualityLow
    else if (b10 &&& vc.lhdcMaxBitRateMask) = vc.lhdcMaxBitRate500k then vc.offQualityMid
    else vc.offQualityHigh
  let ci3 := writeU16 ci2 vc.offMaxBitrateL vc.offMaxBitrateH mq
  ci3.set vc.offInterval
      (if (b10 &&& vc.lhdcLlMask) ≠ 0 then vc.dataInterval10ms else vc.dataInterval20ms)

/-- The LHDC V2 branch of `getCodecSpecificConfig`: fails for a version
nibble above VER2 and for an unsupported split mode; otherwise performs
the `lhdcV2Pack` writes plus the split byte. -/
def lhdcV2Offload (vc : LhdcConsts) (codec_specific_1 : Int)
    (codec_config ci : List Nat) : Bool × List Nat :=
  let b10 := byteAt codec_config 10
  let b11 := byteAt codec_config 11
  if (b10 &&& vc.lhdcVersionMask) > vc.lhdcVer2 then (false, ci)
  else
    let ci4 := lhdcV2Pack vc codec_specific_1 codec_config ci
    if (b11 &&& vc.lhdcChSplitMask) = vc.lhdcChSplitNone then (true, ci4.set vc.offSpec2 0)
    else if (b11 &&& vc.lhdcChSplitMask) = vc.lhdcChSplitTws then
      (true, orByte ci4 vc.offSpec2 vc.specFeatureSplit)
    else (false, ci4)

/-- The LHDC V5 writes that precede the frame-duration check: version,
bitrate tier (with native HIGH1) and max/min bitrate tiers. -/
def lhdcV5PackA (vc : LhdcConsts) (codec_specific_1 : Int)
    (codec_config ci : List Nat) : List Nat :=
  let b10 := byteAt codec_config 10
  let ci1 := ci.set vc.offCfgVer (2 ^ (vc.offV5Ver1 - 1))
  let ci2 := writeU16 ci1 vc.offBitrateL vc.offBitrateH
      (lhdcBitrateQualityV5 vc (codec_specific_1 % 16).toNat)
  let mq :=
    if (b10 &&& vc.lhdcv5MaxBitRateMask) = vc.lhdcv5MaxBitRate400k then vc.offQualityLow
    else if (b10 &&& vc.lhdcv5MaxBitRateMask) = vc.lhdcv5MaxBitRate500k then vc.offQualityMid
    else if (b10 &&& vc.lhdcv5MaxBitRateMask) = vc.lhdcv5MaxBitRate900k then vc.offQualityHigh
    else vc.offQualityHigh1
  let ci3 := writeU16 ci2 vc.offMaxBitrateL vc.offMaxBitrateH mq
  let nq :=
    if (b10 &&& vc.lhdcv5MinBitRateMask) = vc.lhdcv5MinBitRate64k then vc.offQualityLow0
    else if (b10 &&& vc.lhdcv5MinBitRateMask) = vc.lhdcv5MinBitRate128k then vc.offQualityLow1
    else if (b10 &&& vc.lhdcv5MinBitRateMask) = vc.lhdcv5MinBitRate256k then vc.offQualityLow3
    else vc.offQualityLow
  writeU16 ci3 vc.offMinBitrateL vc.offMinBitrateH nq

/-- The LHDC V5 writes that follow the frame-duration check: the 5 ms
frame duration, data interval, feature bits and AR action. -/
def lhdcV5PackB (vc : LhdcConsts) (codec_config ci4 : List Nat) : List Nat :=
  let b12 := byteAt codec_config 12
  let b13 := byteAt codec_config 13
  let ci5 := ci4.set vc.offFrameDur vc.frameDuration5000us
  let ci6 := ci5.set vc.offInterval
      (if (b12 &&& vc.lhdcv5FeatureLl) ≠ 0 then vc.dataInterval10ms else vc.dataInterval20ms)
  let ci7 := if (b12 &&& vc.lhdcv5FeatureAr) ≠ 0 then orByte ci6 vc.offSpec1 vc.specFeatureAr else ci6
  let ci8 := if (b12 &&& vc.lhdcv5FeatureJas) ≠ 0 then orByte ci7 vc.offSpec1 vc.specFeatureJas else ci7
  let ci9 := if (b12 &&& vc.lhdcv5FeatureMeta) ≠ 0 then orByte ci8 vc.offSpec1 vc.specFeatureMeta else ci8
  if (b13 &&& vc.lhdcv5ArOn) ≠ 0 then orByte ci9 vc.offSpec2 vc.specActionArOn else ci9

/-- The LHDC V5 branch of `getCodecSpecificConfig`: fails for a version
field different from VER_1 and for a zero frame-length field. -/
def lhdcV5Offload (vc : LhdcConsts) (codec_specific_1 : Int)
    (codec_config ci : List Nat) : Bool × List Nat :=
  let b11 := byteAt codec_config 11
  if (b11 &&& vc.lhdcv5VersionMask) ≠ vc.lhdcv5Ver1 then (false, ci)
  else
    let ci4 := lhdcV5PackA vc codec_specific_1 codec_config ci
    if (b11 &&& vc.lhdcv5FrameLenMask) = 0 then (false, ci4)
    else (true, lhdcV5PackB vc codec_config ci4)

/-- `A2dpCodecConfig::getCodecSpecificConfig`: zero the 32-byte offload
`codec_info` array, reject an OTA buffer that is not a valid source codec
configuration, then pack per codec family: SBC copies wire bytes 4,5,6,3
into offload bytes 0..3; AAC copies wire bytes 3 and 6; the vendor family
writes the 6 vendor/codec ID bytes and then dispatches on the
(vendor ID, codec ID) pair to the LDAC and LHDC V3/V2/V5 packers; an
unknown vendor codec (and an unknown tag) leaves the zeroed buffer and
returns true. -/
def A2dpCodecConfig.getCodecSpecificConfig (ext : A2dpExt) (vc : LhdcConsts)
    (s : A2dpCodecConfigState) : Bool × List Nat :=
  let ci0 : List Nat := List.replicate 32 0
  if A2DP_IsSourceCodecValid ext s.ota_codec_config_ = false then (false, ci0)
  else
    let codec_config := s.ota_codec_config_
    let codec_type := A2DP_GetCodecType codec_config
    if codec_type = A2DP_MEDIA_CT_SBC then
      (true, (((ci0.set 0 (byteAt codec_config 4)).set 1 (byteAt codec_config 5)).set 2
          (byteAt codec_config 6)).set 3 (byteAt codec_config 3))
    else if codec_type = A2DP_MEDIA_CT_AAC then
      (true, (ci0.set 0 (byteAt codec_config 3)).set 1 (byteAt codec_config 6))
    else if codec_type = A2DP_MEDIA_CT_NON_A2DP then
      let vendor_id := A2DP_VendorCodecGetVendorId codec_config
      let codec_id := A2DP_VendorCodecGetCodecId codec_config
      let ci := (((((ci0.set 0 (vendor_id % 256)).set 1 (vendor_id / 256 % 256)).set 2
          (vendor_id / 65536 % 256)).set 3 (vendor_id / 16777216 % 256)).set 4
          (codec_id % 256)).set 5 (codec_id / 256 % 256)
      if vendor_id = vc.ldacVendorId ∧ codec_id = vc.ldacCodecId then
        ldacOffload vc s.codec_config_.codec_specific_1 codec_config ci
      else if vendor_id = vc.lhdcVendorId ∧ codec_id = vc.lhdcv3CodecId then
        lhdcV3Offload vc s.codec_config_.codec_specific_1 codec_config ci
      else if vendor_id = vc.lhdcVendorId ∧ codec_id = vc.lhdcv2CodecId then
        lhdcV2Offload vc s.codec_config_.codec_specific_1 codec_config ci
      else if vendor_id = vc.lhdcVendorId ∧ codec_id = vc.lhdcv5CodecId then
        lhdcV5Offload vc s.codec_config_.codec_specific_1 codec_config ci
      else (true, ci)
    else (true, ci0)

/-- The audio-format comparison of `setCodecUserConfig` (source lines
820-826): sample rate, bits per sample, channel mode and
`codec_specific_1..3`; `codec_specific_4` is not compared. -/
def audioFormatChanged (o n : BtavCodecConfig) : Bool :=
  decide (o.sample_rate ≠ n.sample_rate) ||
  decide (o.bits_per_sample ≠ n.bits_per_sample) ||
  decide (o.channel_mode ≠ n.channel_mode) ||
  decide (o.codec_specific_1 ≠ n.codec_specific_1) ||
  decide (o.codec_specific_2 ≠ n.codec_specific_2) ||
  decide (o.codec_specific_3 ≠ n.codec_specific_3)

/-- A trivial external environment for concrete evaluations: every
per-codec predicate accepts, names and numbers are fixed. -/
def extTriv : A2dpExt where
  isSourceCodecValidSbc := fun _ => true
  isSourceCodecValidAac := fun _ => true
  isVendorSourceCodecValid := fun _ => true
  isSinkCodecValidSbc := fun _ => true
  isSinkCodecValidAac := fun _ => true
  isVendorSinkCodecValid := fun _ => true
  isPeerSourceCodecValidSbc := fun _ => true
  isPeerSourceCodecValidAac := fun _ => true
  isVendorPeerSourceCodecValid := fun _ => true
  isPeerSinkCodecValidSbc := fun _ => true
  isPeerSinkCodecValidAac := fun _ => true
  isVendorPeerSinkCodecValid := fun _ => true
  codecEqualsSbc := fun _ _ => true
  codecEqualsAac := fun _ _ => true
  vendorCodecEquals := fun _ _ => true
  codecNameSbc := fun _ => "SBC"
  codecNameAac := fun _ => "AAC"
  vendorCodecName := fun _ => "VENDOR"
  getTrackSampleRateSbc := fun _ => 44100
  getTrackSampleRateAac := fun _ => 44100
  vendorGetTrackSampleRate := fun _ => 44100
  sourceCodecIndexSbc := fun _ => 0
  sourceCodecIndexAac := fun _ => 1
  vendorSourceCodecIndex := fun _ => 4
  vendorUsesRtpHeader := fun _ _ => true
  codecIndexMax := 16
  codecIndexSourceMax := 8

/-- The all-zero (empty) configuration record. -/
def cfgEmpty : BtavCodecConfig where
  codec_type := 0
  codec_priority := 0
  sample_rate := 0
  bits_per_sample := 0
  channel_mode := 0
  codec_specific_1 := 0
  codec_specific_2 := 0
  codec_specific_3 := 0
  codec_specific_4 := 0

/-- A concrete descriptor used by the evaluation theorems. -/
def descTriv : A2dpCodecConfigState where
  codec_index_ := 0
  default_codec_priority_ := 0
  codec_priority_ := 1001
  codec_config_ := cfgEmpty
  codec_capability_ := cfgEmpty
  codec_local_capability_ := cfgEmpty
  codec_selectable_capability_ := cfgEmpty
  codec_user_config_ := cfgEmpty
  codec_audio_config_ := cfgEmpty
  ota_codec_config_ := []

/-- A `setCodecConfig` model that succeeds without changing anything. -/
def sccId : SetCodecConfigModel := fun st _ _ =>
  some { codec_config := st.codec_config_
         codec_capability := st.codec_capability_
         ota_codec_config := st.ota_codec_config_ }

/-- A `setCodecConfig` model that always fails. -/
def sccFail : SetCodecConfigModel := fun _ _ _ => none

/-- A `setCodecConfig` model that succeeds changing only
`codec_specific_4` of the negotiated config snapshot. -/
def sccOnlyCs4 : SetCodecConfigModel := fun st _ _ =>
  some { codec_config := { st.codec_config_ with
           codec_specific_4 := st.codec_config_.codec_specific_4 + 1 }
         codec_capability := st.codec_capability_
         ota_codec_config := st.ota_codec_config_ }

/-- Claim C1 (amended): for every descriptor-level `setCodecUserConfig`
call that returns true, `restart_input` is set exactly when the sample
rate, bits per sample, channel mode or one of `codec_specific_1..3`
differs between the pre-call and post-call `config` snapshot
(`codec_specific_4` is not compared), and `restart_output` is set exactly
when the post-call `ota_config` bytes are not codec-equal to the pre-call
`ota_config` bytes. -/
theorem claim_C1_restart_flags (ext : A2dpExt) (scc : SetCodecConfigModel)
    (s : A2dpCodecConfigState) (u a : BtavCodecConfig)
    (peer : List Nat) (cap : Bool)
    (h : (A2dpCodecConfig.setCodecUserConfig ext scc s u a peer cap).success = true) :
    (A2dpCodecConfig.setCodecUserConfig ext scc s u a peer cap).restart_input =
      audioFormatChanged s.codec_config_
        (A2dpCodecConfig.setCodecUserConfig ext scc s u a peer cap).state.codec_config_ ∧
    (A2dpCodecConfig.setCodecUserConfig ext scc s u a peer cap).restart_output =
      ! A2DP_CodecEquals ext s.ota_codec_config_
        (A2dpCodecConfig.setCodecUserConfig ext scc s u a peer cap).state.ota_codec_config_ := by
  simp only [A2dpCodecConfig.setCodecUserConfig] at h ⊢
  cases hscc : scc { s with codec_user_config_ := u, codec_audio_config_ := a } peer cap with
  | none => simp only [hscc] at h; simp at h
  | some r =>
      simp only [hscc] at h ⊢
      simp [audioFormatChanged]

/-- Witness for C1: the amended statement applied at the identity
`setCodecConfig` model. -/
theorem claim_C1_restart_flags_witness :
    (A2dpCodecConfig.setCodecUserConfig extTriv sccId descTriv cfgEmpty cfgEmpty [] true).restart_input =
      audioFormatChanged descTriv.codec_config_
        (A2dpCodecConfig.setCodecUserConfig extTriv sccId descTriv cfgEmpty cfgEmpty [] true).state.codec_config_ ∧
    (A2dpCodecConfig.setCodecUserConfig extTriv sccId descTriv cfgEmpty cfgEmpty [] true).restart_output =
      ! A2DP_CodecEquals extTriv descTriv.ota_codec_config_
        (A2dpCodecConfig.setCodecUserConfig extTriv sccId descTriv cfgEmpty cfgEmpty [] true).state.ota_codec_config_ :=
  claim_C1_restart_flags extTriv sccId descTriv cfgEmpty cfgEmpty [] true (by decide)

/-- Counterexample for C1 as stated: a successful call whose negotiation
changes only `codec_specific_4` of the config snapshot — an
audio-format-affecting field per the claim — yet `restart_input` is
false. -/
theorem claim_C1_counterexample :
    (A2dpCodecConfig.setCodecUserConfig extTriv sccOnlyCs4 descTriv cfgEmpty cfgEmpty [] true).success = true ∧
    descTriv.codec_config_.codec_specific_4 ≠
      (A2dpCodecConfig.setCodecUserConfig extTriv sccOnlyCs4 descTriv cfgEmpty cfgEmpty [] true).state.codec_config_.codec_specific_4 ∧
    descTriv.codec_config_.sample_rate =
      (A2dpCodecConfig.setCodecUserConfig extTriv sccOnlyCs4 descTriv cfgEmpty cfgEmpty [] true).state.codec_config_.sample_rate ∧
    (A2dpCodecConfig.setCodecUserConfig extTriv sccOnlyCs4 descTriv cfgEmpty cfgEmpty [] true).restart_input = false := by
  decide

/-- Claim C2: every failing descriptor-level `setCodecUserConfig` call
leaves the `config`, `ota_config`, `user_config` and `audio_config`
snapshots exactly as before the call. -/
theorem claim_C2_failure_rollback (ext : A2dpExt) (scc : SetCodecConfigModel)
    (s : A2dpCodecConfigState) (u a : BtavCodecConfig)
    (peer : List Nat) (cap : Bool)
    (h : (A2dpCodecConfig.setCodecUserConfig ext scc s u a peer cap).success = false) :
    (A2dpCodecConfig.setCodecUserConfig ext scc s u a peer cap).state.codec_config_ = s.codec_config_ ∧
    (A2dpCodecConfig.setCodecUserConfig ext scc s u a peer cap).state.ota_codec_config_ = s.ota_codec_config_ ∧
    (A2dpCodecConfig.setCodecUserConfig ext scc s u a peer cap).state.codec_user_config_ = s.codec_user_config_ ∧
    (A2dpCodecConfig.setCodecUserConfig ext scc s u a peer cap).state.codec_audio_config_ = s.codec_audio_config_ := by
  simp only [A2dpCodecConfig.setCodecUserConfig] at h ⊢
  cases hscc : scc { s with codec_user_config_ := u, codec_audio_config_ := a } peer cap with
  | none => simp only [hscc] at h ⊢; simp
  | some r => simp only [hscc] at h; simp at h

/-- Witness for C2: the rollback statement applied at the always-failing
`setCodecConfig` model. -/
theorem claim_C2_failure_rollback_witness :
    (A2dpCodecConfig.setCodecUserConfig extTriv sccFail descTriv cfgEmpty cfgEmpty [] true).state.codec_config_ = descTriv.codec_config_ ∧
    (A2dpCodecConfig.setCodecUserConfig extTriv sccFail descTriv cfgEmpty cfgEmpty [] true).state.ota_codec_config_ = descTriv.ota_codec_config_ ∧
    (A2dpCodecConfig.setCodecUserConfig extTriv sccFail descTriv cfgEmpty cfgEmpty [] true).state.codec_user_config_ = descTriv.codec_user_config_ ∧
    (A2dpCodecConfig.setCodecUserConfig extTriv sccFail descTriv cfgEmpty cfgEmpty [] true).state.codec_audio_config_ = descTriv.codec_audio_config_ :=
  claim_C2_failure_rollback extTriv sccFail descTriv cfgEmpty cfgEmpty [] true (by decide)

/-- Claim C9: for a codec-type tag that is none of SBC, AAC or the vendor
tag, the four validity predicates return false, the sample-rate accessor
returns -1, the name accessor returns the sentinel string and the
source-codec-index accessor returns `BTAV_A2DP_CODEC_INDEX_MAX`. -/
theorem claim_C9_unknown_tag (ext : A2dpExt) (p : List Nat)
    (h1 : A2DP_GetCodecType p ≠ A2DP_MEDIA_CT_SBC)
    (h2 : A2DP_GetCodecType p ≠ A2DP_MEDIA_CT_AAC)
    (h3 : A2DP_GetCodecType p ≠ A2DP_MEDIA_CT_NON_A2DP) :
    A2DP_IsSourceCodecValid ext p = false ∧
    A2DP_IsSinkCodecValid ext p = false ∧
    A2DP_IsPeerSourceCodecValid ext p = false ∧
    A2DP_IsPeerSinkCodecValid ext p = false ∧
    A2DP_GetTrackSampleRate ext p = -1 ∧
    A2DP_CodecName ext p = "UNKNOWN CODEC" ∧
    A2DP_SourceCodecIndex ext p = ext.codecIndexMax := by
  unfold A2DP_IsSourceCodecValid A2DP_IsSinkCodecValid A2DP_IsPeerSourceCodecValid
    A2DP_IsPeerSinkCodecValid A2DP_GetTrackSampleRate A2DP_CodecName A2DP_SourceCodecIndex
  simp [h1, h2, h3]

/-- Witness for C9: an MPEG-1,2 Audio tag (value 1) is not dispatched. -/
theorem claim_C9_unknown_tag_witness :
    A2DP_IsSourceCodecValid extTriv [0, 0, 1] = false ∧
    A2DP_IsSinkCodecValid extTriv [0, 0, 1] = false ∧
    A2DP_IsPeerSourceCodecValid extTriv [0, 0, 1] = false ∧
    A2DP_IsPeerSinkCodecValid extTriv [0, 0, 1] = false ∧
    A2DP_GetTrackSampleRate extTriv [0, 0, 1] = -1 ∧
    A2DP_CodecName extTriv [0, 0, 1] = "UNKNOWN CODEC" ∧
    A2DP_SourceCodecIndex extTriv [0, 0, 1] = extTriv.codecIndexMax :=
  claim_C9_unknown_tag extTriv [0, 0, 1] (by decide) (by decide) (by decide)

/-- Claim C10: `A2DP_UsesRtpHeader` returns true for every buffer whose
tag is not the vendor tag — including unknown tags — and delegates exactly
the vendor-tagged buffers to the vendor policy. -/
theorem claim_C10_uses_rtp_header (ext : A2dpExt) (cp : Bool) (p : List Nat) :
    (A2DP_GetCodecType p ≠ A2DP_MEDIA_CT_NON_A2DP →
      A2DP_UsesRtpHeader ext cp p = true) ∧
    (A2DP_GetCodecType p = A2DP_MEDIA_CT_NON_A2DP →
      A2DP_UsesRtpHeader ext cp p = ext.vendorUsesRtpHeader cp p) := by
  constructor
  · intro h; unfold A2DP_UsesRtpHeader; simp [h]
  · intro h; unfold A2DP_UsesRtpHeader; simp [h]

/-- Witness for C10: an unknown tag (value 7) still reports RTP-header
usage. -/
theorem claim_C10_uses_rtp_header_witness :
    A2DP_UsesRtpHeader extTriv false [0, 0, 7] = true :=
  (claim_C10_uses_rtp_header extTriv false [0, 0, 7]).1 (by decide)

/-- Claim C8: for an OTA buffer with the SBC tag accepted by the SBC
source validator, `getCodecSpecificConfig` returns true with exactly four
bytes written on the zeroed offload array — offload bytes 0..3 are wire
bytes 4 (block length/subbands/allocation), 5 (min bitpool), 6 (max
bitpool) and 3 (sample frequency/channel mode); if the buffer is not a
valid source codec configuration it returns false over the zeroed array. -/
theorem claim_C8_sbc_offload (ext : A2dpExt) (vc : LhdcConsts)
    (s : A2dpCodecConfigState) :
    (A2DP_GetCodecType s.ota_codec_config_ = A2DP_MEDIA_CT_SBC ∧
       ext.isSourceCodecValidSbc s.ota_codec_config_ = true →
     A2dpCodecConfig.getCodecSpecificConfig ext vc s =
       (true, ((((List.replicate 32 0).set 0 (byteAt s.ota_codec_config_ 4)).set 1
           (byteAt s.ota_codec_config_ 5)).set 2 (byteAt s.ota_codec_config_ 6)).set 3
           (byteAt s.ota_codec_config_ 3))) ∧
    (A2DP_IsSourceCodecValid ext s.ota_codec_config_ = false →
     A2dpCodecConfig.getCodecSpecificConfig ext vc s = (false, List.replicate 32 0)) := by
  constructor
  · rintro ⟨htag, hval⟩
    have hv : A2DP_IsSourceCodecValid ext s.ota_codec_config_ = true := by
      unfold A2DP_IsSourceCodecValid
      simp [htag, hval]
    simp only [A2dpCodecConfig.getCodecSpecificConfig]
    simp [hv, htag]
  · intro hv
    simp only [A2dpCodecConfig.getCodecSpecificConfig]
    simp [hv]

/-- A concrete assignment of the vendor-header constants; the C7/C8
evaluation theorems only need distinctness of the codec IDs and
well-formed offsets, not the exact header values. -/
def vcTriv : LhdcConsts where
  ldacVendorId := 301
  ldacCodecId := 170
  ldacQualityAbrOffload := 127
  ldacQualityHigh := 0
  ldacQualityMid := 1
  ldacQualityLow := 2
  lhdcVendorId := 1338
  lhdcv2CodecId := 19506
  lhdcv3CodecId := 19507
  lhdcv5CodecId := 19509
  lhdcVersionMask := 15
  lhdcVer2 := 1
  lhdcVer3 := 2
  lhdcVer6 := 6
  lhdcFeatureLlac := 64
  lhdcFeatureLhdcv4 := 128
  offCfgVer := 6
  offV3Llac := 3
  offV3V4Only := 4
  offV3V3Only := 2
  offV2Ver1 := 1
  offV5Ver1 := 1
  lhdcQualityLow0 := 0
  lhdcQualityLow1 := 1
  lhdcQualityLow2 := 2
  lhdcQualityLow3 := 3
  lhdcQualityLow4 := 4
  lhdcQualityLow := 5
  lhdcQualityMid := 6
  lhdcQualityHigh := 7
  lhdcQualityHigh1 := 8
  lhdcQualityAbr := 9
  offQualityLow0 := 100
  offQualityLow1 := 101
  offQualityLow2 := 102
  offQualityLow3 := 103
  offQualityLow4 := 104
  offQualityLow := 105
  offQualityMid := 106
  offQualityHigh := 107
  offQualityHigh1 := 108
  offQualityAbr := 109
  offBitrateL := 7
  offBitrateH := 8
  lhdcMaxBitRateMask := 48
  lhdcMaxBitRate400k := 32
  lhdcMaxBitRate500k := 16
  offMaxBitrateL := 9
  offMaxBitrateH := 10
  lhdcFeatureMinBr := 1
  offMinBitrateL := 11
  offMinBitrateH := 12
  lhdcLlMask := 64
  offInterval := 14
  dataInterval10ms := 1
  dataInterval20ms := 2
  lhdcFeatureAr := 2
  lhdcFeatureJas := 4
  lhdcFeatureMeta := 8
  offSpec1 := 15
  specFeatureAr := 1
  specFeatureJas := 2
  specFeatureMeta := 4
  lhdcChSplitMask := 48
  lhdcChSplitNone := 0
  lhdcChSplitTws := 16
  offSpec2 := 16
  specFeatureSplit := 1
  lhdcv5VersionMask := 15
  lhdcv5Ver1 := 1
  lhdcv5MaxBitRateMask := 48
  lhdcv5MaxBitRate400k := 16
  lhdcv5MaxBitRate500k := 32
  lhdcv5MaxBitRate900k := 48
  lhdcv5MinBitRateMask := 12
  lhdcv5MinBitRate64k := 4
  lhdcv5MinBitRate128k := 8
  lhdcv5MinBitRate256k := 12
  lhdcv5FrameLenMask := 192
  offFrameDur := 13
  frameDuration5000us := 2
  lhdcv5FeatureLl := 1
  lhdcv5FeatureAr := 2
  lhdcv5FeatureJas := 4
  lhdcv5FeatureMeta := 8
  lhdcv5ArOn := 1
  specActionArOn := 2

/-- The negotiated SBC configuration of the round-trip scenario: blocks 16
(0x10), subbands 8 (0x04), loudness allocation (0x01) — wire byte 4 is
0x15; 44100 Hz (0x20) stereo (0x02) — wire byte 3 is 0x22; bitpool
range 2..53 in wire bytes 5 and 6. -/
def sbcOta : List Nat := [6, 0, 0, 34, 21, 2, 53]

/-- A descriptor holding the negotiated SBC configuration. -/
def descSbc : A2dpCodecConfigState := { descTriv with ota_codec_config_ := sbcOta }

/-- Witness for C8: the documented four offload bytes of the 44100 Hz
stereo blocks-16 subbands-8 bitpool-[2,53] configuration. -/
theorem claim_C8_sbc_offload_witness :
    A2dpCodecConfig.getCodecSpecificConfig extTriv vcTriv descSbc =
      (true, [21, 2, 53, 34] ++ List.replicate 28 0) :=
  ((claim_C8_sbc_offload extTriv vcTriv descSbc).1 ⟨by decide, by decide⟩).trans (by decide)

/-- The LHDC V3 packer fails for a version nibble that is neither VER3 nor
VER6. -/
theorem lhdcV3Offload_version_fail (vc : LhdcConsts) (cs1 : Int) (cc ci : List Nat)
    (h1 : (byteAt cc 10 &&& vc.lhdcVersionMask) ≠ vc.lhdcVer3)
    (h2 : (byteAt cc 10 &&& vc.lhdcVersionMask) ≠ vc.lhdcVer6) :
    (lhdcV3Offload vc cs1 cc ci).1 = false := by
  simp only [lhdcV3Offload]
  rw [if_pos ⟨h1, h2⟩]

/-- The LHDC V3 packer fails for a split mode that is neither NONE nor
TWS. -/
theorem lhdcV3Offload_split_fail (vc : LhdcConsts) (cs1 : Int) (cc ci : List Nat)
    (h1 : (byteAt cc 11 &&& vc.lhdcChSplitMask) ≠ vc.lhdcChSplitNone)
    (h2 : (byteAt cc 11 &&& vc.lhdcChSplitMask) ≠ vc.lhdcChSplitTws) :
    (lhdcV3Offload vc cs1 cc ci).1 = false := by
  simp only [lhdcV3Offload]
  split
  · rfl
  · simp [h1, h2]

/-- The LHDC V2 packer fails for a version nibble above VER2. -/
theorem lhdcV2Offload_version_fail (vc : LhdcConsts) (cs1 : Int) (cc ci : List Nat)
    (h : (byteAt cc 10 &&& vc.lhdcVersionMask) > vc.lhdcVer2) :
    (lhdcV2Offload vc cs1 cc ci).1 = false := by
  simp only [lhdcV2Offload]
  rw [if_pos h]

/-- The LHDC V2 packer fails for a split mode that is neither NONE nor
TWS. -/
theorem lhdcV2Offload_split_fail (vc : LhdcConsts) (cs1 : Int) (cc ci : List Nat)
    (h1 : (byteAt cc 11 &&& vc.lhdcChSplitMask) ≠ vc.lhdcChSplitNone)
    (h2 : (byteAt cc 11 &&& vc.lhdcChSplitMask) ≠ vc.lhdcChSplitTws) :
    (lhdcV2Offload vc cs1 cc ci).1 = false := by
  simp only [lhdcV2Offload]
  split
  · rfl
  · simp [h1, h2]

/-- The LHDC V5 packer fails for a version field different from VER_1. -/
theorem lhdcV5Offload_version_fail (vc : LhdcConsts) (cs1 : Int) (cc ci : List Nat)
    (h : (byteAt cc 11 &&& vc.lhdcv5VersionMask) ≠ vc.lhdcv5Ver1) :
    (lhdcV5Offload vc cs1 cc ci).1 = false := by
  simp only [lhdcV5Offload]
  rw [if_pos h]

/-- The LHDC V5 packer fails for a zero frame-length field. -/
theorem lhdcV5Offload_framelen_fail (vc : LhdcConsts) (cs1 : Int) (cc ci : List Nat)
    (h : (byteAt cc 11 &&& vc.lhdcv5FrameLenMask) = 0) :
    (lhdcV5Offload vc cs1 cc ci).1 = false := by
  simp only [lhdcV5Offload]
  split
  · rfl
  · simp [h]

/-- Claim C7: for an LHDC-family OTA buffer, `getCodecSpecificConfig`
returns false when the buffer carries an unsupported protocol version —
for the LHDC V3 codec ID a version nibble that is neither VER3 nor VER6,
for the LHDC V2 codec ID a version nibble above VER2, for the LHDC V5
codec ID a version field different from VER_1 — and likewise for an
unsupported split/channel mode (V3 and V2) and, for V5, an unsupported
(zero) frame-duration field. -/
theorem claim_C7_lhdc_unsupported (ext : A2dpExt) (vc : LhdcConsts)
    (s : A2dpCodecConfigState)
    (hval : ext.isVendorSourceCodecValid s.ota_codec_config_ = true)
    (htag : A2DP_GetCodecType s.ota_codec_config_ = A2DP_MEDIA_CT_NON_A2DP)
    (hvid : A2DP_VendorCodecGetVendorId s.ota_codec_config_ = vc.lhdcVendorId)
    (hnl : vc.lhdcVendorId ≠ vc.ldacVendorId) :
    (A2DP_VendorCodecGetCodecId s.ota_codec_config_ = vc.lhdcv3CodecId ∧
       (byteAt s.ota_codec_config_ 10 &&& vc.lhdcVersionMask) ≠ vc.lhdcVer3 ∧
       (byteAt s.ota_codec_config_ 10 &&& vc.lhdcVersionMask) ≠ vc.lhdcVer6 →
     (A2dpCodecConfig.getCodecSpecificConfig ext vc s).1 = false) ∧
    (A2DP_VendorCodecGetCodecId s.ota_codec_config_ = vc.lhdcv3CodecId ∧
       (byteAt s.ota_codec_config_ 11 &&& vc.lhdcChSplitMask) ≠ vc.lhdcChSplitNone ∧
       (byteAt s.ota_codec_config_ 11 &&& vc.lhdcChSplitMask) ≠ vc.lhdcChSplitTws →
     (A2dpCodecConfig.getCodecSpecificConfig ext vc s).1 = false) ∧
    (A2DP_VendorCodecGetCodecId s.ota_codec_config_ = vc.lhdcv2CodecId ∧
       vc.lhdcv2CodecId ≠ vc.lhdcv3CodecId ∧
       (byteAt s.ota_codec_config_ 10 &&& vc.lhdcVersionMask) > vc.lhdcVer2 →
     (A2dpCodecConfig.getCodecSpecificConfig ext vc s).1 = false) ∧
    (A2DP_VendorCodecGetCodecId s.ota_codec_config_ = vc.lhdcv2CodecId ∧
       vc.lhdcv2CodecId ≠ vc.lhdcv3CodecId ∧
       (byteAt s.ota_codec_config_ 11 &&& vc.lhdcChSplitMask) ≠ vc.lhdcChSplitNone ∧
       (byteAt s.ota_codec_config_ 11 &&& vc.lhdcChSplitMask) ≠ vc.lhdcChSplitTws →
     (A2dpCodecConfig.getCodecSpecificConfig ext vc s).1 = false) ∧
    (A2DP_VendorCodecGetCodecId s.ota_codec_config_ = vc.lhdcv5CodecId ∧
       vc.lhdcv5CodecId ≠ vc.lhdcv3CodecId ∧ vc.lhdcv5CodecId ≠ vc.lhdcv2CodecId ∧
       (byteAt s.ota_codec_config_ 11 &&& vc.lhdcv5VersionMask) ≠ vc.lhdcv5Ver1 →
     (A2dpCodecConfig.getCodecSpecificConfig ext vc s).1 = false) ∧
    (A2DP_VendorCodecGetCodecId s.ota_codec_config_ = vc.lhdcv5CodecId ∧
       vc.lhdcv5CodecId ≠ vc.lhdcv3CodecId ∧ vc.lhdcv5CodecId ≠ vc.lhdcv2CodecId ∧
       (byteAt s.ota_codec_config_ 11 &&& vc.lhdcv5FrameLenMask) = 0 →
     (A2dpCodecConfig.getCodecSpecificConfig ext vc s).1 = false) := by
  have hv : A2DP_IsSourceCodecValid ext s.ota_codec_config_ = true := by
    unfold A2DP_IsSourceCodecValid
    simp [htag, hval, A2DP_MEDIA_CT_SBC, A2DP_MEDIA_CT_AAC, A2DP_MEDIA_CT_NON_A2DP]
  refine ⟨?_, ?_, ?_, ?_, ?_, ?_⟩
  · rintro ⟨hcid, h1, h2⟩
    simp only [A2dpCodecConfig.getCodecSpecificConfig]
    simp [hv, htag, hvid, hcid, hnl, A2DP_MEDIA_CT_SBC, A2DP_MEDIA_CT_AAC,
      A2DP_MEDIA_CT_NON_A2DP, lhdcV3Offload_version_fail vc _ _ _ h1 h2]
  · rintro ⟨hcid, h1, h2⟩
    simp only [A2dpCodecConfig.getCodecSpecificConfig]
    simp [hv, htag, hvid, hcid, hnl, A2DP_MEDIA_CT_SBC, A2DP_MEDIA_CT_AAC,
      A2DP_MEDIA_CT_NON_A2DP, lhdcV3Offload_split_fail vc _ _ _ h1 h2]
  · rintro ⟨hcid, h23, h1⟩
    simp only [A2dpCodecConfig.getCodecSpecificConfig]
    simp [hv, htag, hvid, hcid, hnl, h23, A2DP_MEDIA_CT_SBC, A2DP_MEDIA_CT_AAC,
      A2DP_MEDIA_CT_NON_A2DP, lhdcV2Offload_version_fail vc _ _ _ h1]
  · rintro ⟨hcid, h23, h1, h2⟩
    simp only [A2dpCodecConfig.getCodecSpecificConfig]
    simp [hv, htag, hvid, hcid, hnl, h23, A2DP_MEDIA_CT_SBC, A2DP_MEDIA_CT_AAC,
      A2DP_MEDIA_CT_NON_A2DP, lhdcV2Offload_split_fail vc _ _ _ h1 h2]
  · rintro ⟨hcid, h53, h52, h1⟩
    simp only [A2dpCodecConfig.getCodecSpecificConfig]
    simp [hv, htag, hvid, hcid, hnl, h53, h52, A2DP_MEDIA_CT_SBC, A2DP_MEDIA_CT_AAC,
      A2DP_MEDIA_CT_NON_A2DP, lhdcV5Offload_version_fail vc _ _ _ h1]
  · rintro ⟨hcid, h53, h52, h1⟩
    simp only [A2dpCodecConfig.getCodecSpecificConfig]
    simp [hv, htag, hvid, hcid, hnl, h53, h52, A2DP_MEDIA_CT_SBC, A2DP_MEDIA_CT_AAC,
      A2DP_MEDIA_CT_NON_A2DP, lhdcV5Offload_framelen_fail vc _ _ _ h1]

/-- An LHDC V3 OTA buffer whose version nibble (byte 10, low nibble 0) is
neither VER3 nor VER6 under `vcTriv`. -/
def lhdcOtaBadVersion : List Nat := [2, 0, 255, 58, 5, 0, 0, 51, 76, 0, 0, 0]

/-- A descriptor holding the bad-version LHDC V3 buffer. -/
def descLhdc : A2dpCodecConfigState := { descTriv with ota_codec_config_ := lhdcOtaBadVersion }

/-- Witness for C7: the LHDC V3 unsupported-version failure at a concrete
buffer. -/
theorem claim_C7_lhdc_unsupported_witness :
    (A2dpCodecConfig.getCodecSpecificConfig extTriv vcTriv descLhdc).1 = false :=
  (claim_C7_lhdc_unsupported extTriv vcTriv descLhdc (by decide) (by decide)
    (by decide) (by decide)).1 ⟨by decide, by decide, by decide⟩

/-- `compare_codec_priority` is asymmetric: no two descriptors each sort
strictly before the other. -/
theorem compare_codec_priority_asymm (m : Nat → Option A2dpCodecConfigState)
    (a b : Nat) (h : compare_codec_priority m a b = true) :
    compare_codec_priority m b a = false := by
  unfold compare_codec_priority at h ⊢
  split_ifs at h ⊢ <;> simp_all <;> omega

/-- Inserting into a list whose adjacent pairs are not inverted keeps
adjacent pairs not inverted, for an asymmetric comparator. -/
theorem chain'_insertSorted (lt : Nat → Nat → Bool)
    (hasym : ∀ a b, lt a b = true → lt b a = false)
    (a : Nat) (l : List Nat)
    (h : List.Chain' (fun x y => lt y x = false) l) :
    List.Chain' (fun x y => lt y x = false) (insertSorted lt a l) := by
  induction l with
  | nil => simp [insertSorted]
  | cons b bs ih =>
    rw [insertSorted]
    by_cases hba : lt b a = true
    · rw [if_pos hba]
      rw [List.chain'_cons']
      refine ⟨?_, ih h.tail⟩
      intro y hy
      cases bs with
      | nil =>
        simp [insertSorted] at hy
        subst hy
        exact hasym b a hba
      | cons c cs =>
        rw [insertSorted] at hy
        by_cases hca : lt c a = true
        · rw [if_pos hca] at hy
          simp at hy
          subst hy
          exact (List.chain'_cons.mp h).1
        · rw [if_neg hca] at hy
          simp at hy
          subst hy
          exact hasym b a hba
    · rw [if_neg hba]
      rw [List.chain'_cons']
      refine ⟨?_, h⟩
      intro y hy
      simp at hy
      subst hy
      exact Bool.eq_false_iff.mpr hba

/-- `sortByCmp` with an asymmetric comparator produces a list with no
inverted adjacent pair. -/
theorem chain'_sortByCmp (lt : Nat → Nat → Bool)
    (hasym : ∀ a b, lt a b = true → lt b a = false) (l : List Nat) :
    List.Chain' (fun x y => lt y x = false) (sortByCmp lt l) := by
  induction l with
  | nil => simp [sortByCmp]
  | cons a as ih => exact chain'_insertSorted lt hasym a (sortByCmp lt as) ih

/-- The re-sorted source list of `finishUserConfig` is sorted by
`compare_codec_priority` over the final descriptor map. -/
theorem finishUserConfig_sorted (st : A2dpCodecsState)
    (m : Nat → Option A2dpCodecConfigState) (cur : Option Nat) (ri ro cu : Bool) :
    SortedByPriority (finishUserConfig st m cur ri ro cu).state.indexed_codecs_
      (finishUserConfig st m cur ri ro cu).state.ordered_source_codecs_ := by
  unfold finishUserConfig SortedByPriority
  exact chain'_sortByCmp (compare_codec_priority m)
    (compare_codec_priority_asymm m) st.ordered_source_codecs_

/-- Inversion for `resolveTargetCodec`: the target is the explicit codec
type when it is in range, and the current codec otherwise. -/
theorem resolveTargetCodec_inv (ext : A2dpExt) (st : A2dpCodecsState)
    (ct t : Nat) (h : resolveTargetCodec ext st ct = some t) :
    (ct < ext.codecIndexMax ∧ t = ct) ∨
    (¬ ct < ext.codecIndexMax ∧ st.current_codec_config_ = some t) := by
  unfold resolveTargetCodec at h
  split at h
  · left
    constructor
    · assumption
    · split at h
      · exact (Option.some.inj h).symm
      · exact absurd h (by simp)
  · right
    constructor
    · assumption
    · exact h

/-- The priority-reconciliation step only mutates the descriptor of the
previous current codec (demotion); every other key keeps its map entry. -/
theorem prioritySelectionStep_map (m : Nat → Option A2dpCodecConfigState)
    (last : Option Nat) (t : Nat) (old_priority new_priority : Int)
    (ri ro cu : Bool) (i : Nat)
    (h : ∀ l, last = some l → i ≠ l) :
    (prioritySelectionStep m last t old_priority new_priority ri ro cu).1 i = m i := by
  unfold prioritySelectionStep
  cases last with
  | none => rfl
  | some l =>
    have hil : i ≠ l := h l rfl
    simp only
    split_ifs <;> try rfl
    cases hml : m l with
    | none => rfl
    | some dl => simp [storeIndexed, hil]

/-- Every successful `A2dpCodecs::setCodecUserConfig` call ends in the
common `finishUserConfig` tail, and its final descriptor map differs from
the initial one only at the target and at the previous current codec. -/
theorem setCodecUserConfig_success_shape (ext : A2dpExt) (scc : SetCodecConfigModel)
    (st : A2dpCodecsState) (u : BtavCodecConfig) (p : List Nat) :
    (A2dpCodecs.setCodecUserConfig ext scc st u p).success = false ∨
    ∃ m cur ri ro cu,
      A2dpCodecs.setCodecUserConfig ext scc st u p = finishUserConfig st m cur ri ro cu ∧
      (∀ i, (u.codec_type < ext.codecIndexMax → i ≠ u.codec_type) →
            (∀ l, st.current_codec_config_ = some l → i ≠ l) →
            m i = st.indexed_codecs_ i) := by
  simp only [A2dpCodecs.setCodecUserConfig]
  split
  · left; rfl
  · rename_i t ht
    split
    · left; rfl
    · rename_i d hd
      split
      · left; rfl
      · rename_i hr
        right
        refine ⟨_, _, _, _, _, rfl, ?_⟩
        intro i hit hil
        have hitt : i ≠ t := by
          rcases resolveTargetCodec_inv ext st u.codec_type t ht with ⟨hlt, rfl⟩ | ⟨hge, hcur⟩
          · exact hit hlt
          · exact hil t hcur
        rw [prioritySelectionStep_map _ _ _ _ _ _ _ _ _ hil]
        simp [storeIndexed, hitt]

/-- A chain property transfers along a relation implication that is only
required on members of the list. -/
theorem chain'_of_pointwise {R S : Nat → Nat → Prop} :
    ∀ (l : List Nat), (∀ a ∈ l, ∀ b ∈ l, R a b → S a b) →
      List.Chain' R l → List.Chain' S l := by
  intro l
  induction l with
  | nil => intro _ _; simp
  | cons a as ih =>
    intro himp hch
    rw [List.chain'_cons'] at hch ⊢
    refine ⟨?_, ih (fun x hx y hy => himp x (by simp [hx]) y (by simp [hy])) hch.2⟩
    intro y hy
    have hy' : y ∈ as := by
      cases as with
      | nil => simp at hy
      | cons c cs => simp at hy; simp [hy]
    exact himp a (by simp) y (by simp [hy']) (hch.1 y hy)

/-- `compare_codec_priority` reads the map only at its two arguments. -/
theorem compare_codec_priority_congr (m m' : Nat → Option A2dpCodecConfigState)
    (a b : Nat) (ha : m' a = m a) (hb : m' b = m b) :
    compare_codec_priority m' a b = compare_codec_priority m a b := by
  unfold compare_codec_priority codecPriorityIn codecIndexIn
  rw [ha, hb]

/-- Claim C3 (amended): after every successful registry
`setCodecUserConfig` call, `ordered_source_codecs_` is re-sorted and
sorted by `compare_codec_priority`; `ordered_sink_codecs_` is not
re-sorted — its order is kept verbatim — so it stays sorted exactly when
the call touched no descriptor on it (neither as the target nor as the
demoted previous current codec). -/
theorem claim_C3_ordering (ext : A2dpExt) (scc : SetCodecConfigModel)
    (st : A2dpCodecsState) (u : BtavCodecConfig) (p : List Nat)
    (h : (A2dpCodecs.setCodecUserConfig ext scc st u p).success = true) :
    SortedByPriority (A2dpCodecs.setCodecUserConfig ext scc st u p).state.indexed_codecs_
      (A2dpCodecs.setCodecUserConfig ext scc st u p).state.ordered_source_codecs_ ∧
    (A2dpCodecs.setCodecUserConfig ext scc st u p).state.ordered_sink_codecs_ =
      st.ordered_sink_codecs_ ∧
    ((∀ i ∈ st.ordered_sink_codecs_,
        (u.codec_type < ext.codecIndexMax → i ≠ u.codec_type) ∧
        (∀ l, st.current_codec_config_ = some l → i ≠ l)) →
      SortedByPriority st.indexed_codecs_ st.ordered_sink_codecs_ →
      SortedByPriority (A2dpCodecs.setCodecUserConfig ext scc st u p).state.indexed_codecs_
        (A2dpCodecs.setCodecUserConfig ext scc st u p).state.ordered_sink_codecs_) := by
  rcases setCodecUserConfig_success_shape ext scc st u p with hf | ⟨m, cur, ri, ro, cu, heq, hloc⟩
  · rw [hf] at h; exact absurd h (by simp)
  · rw [heq]
    refine ⟨finishUserConfig_sorted st m cur ri ro cu, rfl, ?_⟩
    intro hmem hsorted
    have hsink : (finishUserConfig st m cur ri ro cu).state.ordered_sink_codecs_ =
        st.ordered_sink_codecs_ := rfl
    have hm : (finishUserConfig st m cur ri ro cu).state.indexed_codecs_ = m := rfl
    rw [hsink, hm]
    unfold SortedByPriority at hsorted ⊢
    refine chain'_of_pointwise st.ordered_sink_codecs_ ?_ hsorted
    intro a ha b hb hr
    have hma : m a = st.indexed_codecs_ a := hloc a (hmem a ha).1 (hmem a ha).2
    have hmb : m b = st.indexed_codecs_ b := hloc b (hmem b hb).1 (hmem b hb).2
    rw [compare_codec_priority_congr st.indexed_codecs_ m b a hmb hma]
    exact hr

/-- Builds a descriptor with a given codec index and priority. -/
def mkDesc (i : Nat) (p : Int) : A2dpCodecConfigState where
  codec_index_ := i
  default_codec_priority_ := 0
  codec_priority_ := p
  codec_config_ := { cfgEmpty with codec_type := i, codec_priority := p }
  codec_capability_ := cfgEmpty
  codec_local_capability_ := cfgEmpty
  codec_selectable_capability_ := cfgEmpty
  codec_user_config_ := cfgEmpty
  codec_audio_config_ := cfgEmpty
  ota_codec_config_ := []

/-- A registry with source codec 0 and sink codecs 8 and 9 (priorities
1001, 9001, 8001), both ordered lists sorted, no current codec. -/
def stC3 : A2dpCodecsState where
  indexed_codecs_ := fun i =>
    if i = 0 then some (mkDesc 0 1001)
    else if i = 8 then some (mkDesc 8 9001)
    else if i = 9 then some (mkDesc 9 8001)
    else none
  ordered_source_codecs_ := [0]
  ordered_sink_codecs_ := [8, 9]
  current_codec_config_ := none

/-- A user configuration targeting sink codec 9 with priority 9500. -/
def userC3 : BtavCodecConfig := { cfgEmpty with codec_type := 9, codec_priority := 9500 }

/-- Counterexample for C3 as stated: starting from a registry whose two
ordered lists are both sorted, a successful `setCodecUserConfig` call that
raises the priority of sink codec 9 above sink codec 8 returns with
`ordered_sink_codecs_` no longer sorted (the registry re-sorts only the
source list). -/
theorem claim_C3_counterexample :
    SortedByPriority stC3.indexed_codecs_ stC3.ordered_source_codecs_ ∧
    SortedByPriority stC3.indexed_codecs_ stC3.ordered_sink_codecs_ ∧
    (A2dpCodecs.setCodecUserConfig extTriv sccId stC3 userC3 []).success = true ∧
    ¬ SortedByPriority
        (A2dpCodecs.setCodecUserConfig extTriv sccId stC3 userC3 []).state.indexed_codecs_
        (A2dpCodecs.setCodecUserConfig extTriv sccId stC3 userC3 []).state.ordered_sink_codecs_ := by
  decide

/-- Witness for the amended C3: the sorted-source and verbatim-sink parts
at a concrete successful call. -/
theorem claim_C3_ordering_witness :
    SortedByPriority
      (A2dpCodecs.setCodecUserConfig extTriv sccId stC3 userC3 []).state.indexed_codecs_
      (A2dpCodecs.setCodecUserConfig extTriv sccId stC3 userC3 []).state.ordered_source_codecs_ ∧
    (A2dpCodecs.setCodecUserConfig extTriv sccId stC3 userC3 []).state.ordered_sink_codecs_ =
      stC3.ordered_sink_codecs_ :=
  ⟨(claim_C3_ordering extTriv sccId stC3 userC3 [] (by decide)).1,
   (claim_C3_ordering extTriv sccId stC3 userC3 [] (by decide)).2.1⟩

/-- The descriptor-level `setCodecUserConfig` never touches the priority
fields (`codec_priority_`, `default_codec_priority_`, `codec_index_`). -/
theorem descCall_preserves_priority_fields (ext : A2dpExt) (scc : SetCodecConfigModel)
    (s : A2dpCodecConfigState) (u a : BtavCodecConfig) (peer : List Nat) (cap : Bool) :
    (A2dpCodecConfig.setCodecUserConfig ext scc s u a peer cap).state.codec_priority_ = s.codec_priority_ ∧
    (A2dpCodecConfig.setCodecUserConfig ext scc s u a peer cap).state.default_codec_priority_ = s.default_codec_priority_ ∧
    (A2dpCodecConfig.setCodecUserConfig ext scc s u a peer cap).state.codec_index_ = s.codec_index_ := by
  simp only [A2dpCodecConfig.setCodecUserConfig]
  cases hscc : scc { s with codec_user_config_ := u, codec_audio_config_ := a } peer cap with
  | none => simp [hscc]
  | some r => simp [hscc]

/-- The recomputed priority of `setCodecPriority` depends only on the
requested value, the construction-time default and the codec index. -/
theorem setCodecPriority_priority_congr (s s' : A2dpCodecConfigState) (p : Int)
    (h2 : s'.default_codec_priority_ = s.default_codec_priority_)
    (h3 : s'.codec_index_ = s.codec_index_) :
    (A2dpCodecConfig.setCodecPriority s' p).codec_priority_ =
    (A2dpCodecConfig.setCodecPriority s p).codec_priority_ := by
  unfold A2dpCodecConfig.setCodecPriority A2dpCodecConfig.setDefaultCodecPriority
  split_ifs <;> simp_all

/-- The switch branch of the priority-reconciliation step: the target is
not current, its new priority is strictly higher than its old one and at
least the current codec's priority — the current codec is demoted to its
computed default and the target becomes current with both restart flags
forced. -/
theorem prioritySelectionStep_switch (m : Nat → Option A2dpCodecConfigState)
    (l t : Nat) (old_priority new_priority : Int) (ri ro cu : Bool)
    (dl : A2dpCodecConfigState)
    (hne : t ≠ l) (hgt : ¬ new_priority ≤ old_priority)
    (hml : m l = some dl) (hge : new_priority ≥ dl.codec_priority_) :
    prioritySelectionStep m (some l) t old_priority new_priority ri ro cu =
      (storeIndexed m l (A2dpCodecConfig.setDefaultCodecPriority dl),
        some t, true, true, true) := by
  have hp : codecPriorityIn m l = dl.codec_priority_ := by
    unfold codecPriorityIn; rw [hml]
  unfold prioritySelectionStep
  simp only
  rw [if_neg hne, if_neg hgt, if_pos (by rw [hp]; exact hge), hml]

/-- The backup-codec branch of the priority-reconciliation step: the
target is not current and its new priority did not increase — no switch,
both restart flags cleared, `config_updated` forced when the priority
changed or a restart flag had been set. -/
theorem prioritySelectionStep_noswitch (m : Nat → Option A2dpCodecConfigState)
    (l t : Nat) (old_priority new_priority : Int) (ri ro cu : Bool)
    (hne : t ≠ l) (hle : new_priority ≤ old_priority) :
    prioritySelectionStep m (some l) t old_priority new_priority ri ro cu =
      (m, some l, false, false,
        if ri || ro || decide (old_priority ≠ new_priority) then true else cu) := by
  unfold prioritySelectionStep
  simp only
  rw [if_neg hne, if_pos hle]

/-- The shape of a successful registry `setCodecUserConfig` call in terms
of the descriptor-level call and the priority-reconciliation step. -/
theorem setCodecUserConfig_success_eq (ext : A2dpExt) (scc : SetCodecConfigModel)
    (st : A2dpCodecsState) (u : BtavCodecConfig) (p : List Nat) (t : Nat)
    (d : A2dpCodecConfigState)
    (hres : resolveTargetCodec ext st u.codec_type = some t)
    (hfind : st.indexed_codecs_ t = some d)
    (hsucc : (A2dpCodecConfig.setCodecUserConfig ext scc d u
        d.codec_audio_config_ p true).success = true) :
    A2dpCodecs.setCodecUserConfig ext scc st u p =
      (let r := A2dpCodecConfig.setCodecUserConfig ext scc d u d.codec_audio_config_ p true
       let m1 := storeIndexed st.indexed_codecs_ t r.state
       let d1 := A2dpCodecConfig.setCodecPriority r.state u.codec_priority
       let m2 := storeIndexed m1 t d1
       let step := prioritySelectionStep m2 st.current_codec_config_ t
           r.state.codec_priority_ d1.codec_priority_
           r.restart_input r.restart_output r.config_updated
       finishUserConfig st step.1 step.2.1 step.2.2.1 step.2.2.2.1 step.2.2.2.2) := by
  simp only [A2dpCodecs.setCodecUserConfig]
  simp only [hres, hfind]
  rw [if_neg (by simp [hsucc])]

/-- Claim C5: when the descriptor-level call succeeds, a current codec
existed, the target is a different descriptor and its recomputed priority
strictly exceeds its old priority and is at least the current codec's
priority, the registry switches: the target becomes current, the old
current descriptor's priority is reset to its computed default, both
restart flags and `config_updated` are returned true. -/
theorem claim_C5_switch (ext : A2dpExt) (scc : SetCodecConfigModel)
    (st : A2dpCodecsState) (u : BtavCodecConfig) (p : List Nat) (l : Nat)
    (d dl : A2dpCodecConfigState)
    (hcur : st.current_codec_config_ = some l)
    (hlt : u.codec_type < ext.codecIndexMax)
    (hfind : st.indexed_codecs_ u.codec_type = some d)
    (hne : u.codec_type ≠ l)
    (hfl : st.indexed_codecs_ l = some dl)
    (hsucc : (A2dpCodecConfig.setCodecUserConfig ext scc d u
        d.codec_audio_config_ p true).success = true)
    (hinc : d.codec_priority_ <
        (A2dpCodecConfig.setCodecPriority d u.codec_priority).codec_priority_)
    (hge : (A2dpCodecConfig.setCodecPriority d u.codec_priority).codec_priority_ ≥
        dl.codec_priority_) :
    (A2dpCodecs.setCodecUserConfig ext scc st u p).success = true ∧
    (A2dpCodecs.setCodecUserConfig ext scc st u p).state.current_codec_config_ =
      some u.codec_type ∧
    codecPriorityIn (A2dpCodecs.setCodecUserConfig ext scc st u p).state.indexed_codecs_ l =
      (A2dpCodecConfig.setDefaultCodecPriority dl).codec_priority_ ∧
    (A2dpCodecs.setCodecUserConfig ext scc st u p).restart_input = true ∧
    (A2dpCodecs.setCodecUserConfig ext scc st u p).restart_output = true ∧
    (A2dpCodecs.setCodecUserConfig ext scc st u p).config_updated = true := by
  have hres : resolveTargetCodec ext st u.codec_type = some u.codec_type := by
    unfold resolveTargetCodec
    rw [if_pos hlt, hfind]
  have heq := setCodecUserConfig_success_eq ext scc st u p u.codec_type d hres hfind hsucc
  obtain ⟨hp1, hp2, hp3⟩ :=
    descCall_preserves_priority_fields ext scc d u d.codec_audio_config_ p true
  set r := A2dpCodecConfig.setCodecUserConfig ext scc d u d.codec_audio_config_ p true with hr
  have hnew : (A2dpCodecConfig.setCodecPriority r.state u.codec_priority).codec_priority_ =
      (A2dpCodecConfig.setCodecPriority d u.codec_priority).codec_priority_ :=
    setCodecPriority_priority_congr d r.state u.codec_priority hp2 hp3
  have hm2l : storeIndexed (storeIndexed st.indexed_codecs_ u.codec_type r.state)
      u.codec_type (A2dpCodecConfig.setCodecPriority r.state u.codec_priority) l = some dl := by
    simp [storeIndexed, Ne.symm hne, hfl]
  have hstep := prioritySelectionStep_switch
    (storeIndexed (storeIndexed st.indexed_codecs_ u.codec_type r.state)
      u.codec_type (A2dpCodecConfig.setCodecPriority r.state u.codec_priority))
    l u.codec_type r.state.codec_priority_
    (A2dpCodecConfig.setCodecPriority r.state u.codec_priority).codec_priority_
    r.restart_input r.restart_output r.config_updated dl hne
    (by rw [hnew, hp1]; omega) hm2l (by rw [hnew]; exact hge)
  rw [heq]
  simp only [hcur, hstep]
  refine ⟨rfl, rfl, ?_, rfl, rfl, rfl⟩
  simp [finishUserConfig, codecPriorityIn, storeIndexed]

/-- A successful descriptor-level call reports `config_updated` as the OR
of its two restart flags. -/
theorem descCall_config_updated (ext : A2dpExt) (scc : SetCodecConfigModel)
    (s : A2dpCodecConfigState) (u a : BtavCodecConfig) (peer : List Nat) (cap : Bool)
    (h : (A2dpCodecConfig.setCodecUserConfig ext scc s u a peer cap).success = true) :
    (A2dpCodecConfig.setCodecUserConfig ext scc s u a peer cap).config_updated =
      ((A2dpCodecConfig.setCodecUserConfig ext scc s u a peer cap).restart_input ||
       (A2dpCodecConfig.setCodecUserConfig ext scc s u a peer cap).restart_output) := by
  simp only [A2dpCodecConfig.setCodecUserConfig] at h ⊢
  cases hscc : scc { s with codec_user_config_ := u, codec_audio_config_ := a } peer cap with
  | none => simp [hscc] at h
  | some r => simp [hscc]

/-- Forcing `config_updated` on a priority change or a pending restart
collapses to a plain disjunction when the incoming value was the OR of the
restart flags. -/
theorem if_or_force (a b c : Bool) :
    (if (a || b || c) = true then true else (a || b)) = (a || b || c) := by
  cases a <;> cases b <;> cases c <;> simp

/-- Claim C6: when the descriptor-level call succeeds, a current codec
existed, the target is a different descriptor and its recomputed priority
did not increase, the registry keeps the current selection, returns both
restart flags false, and returns `config_updated` true exactly when the
priority changed or the descriptor-level call had set a restart flag. -/
theorem claim_C6_backup_priority (ext : A2dpExt) (scc : SetCodecConfigModel)
    (st : A2dpCodecsState) (u : BtavCodecConfig) (p : List Nat) (l : Nat)
    (d : A2dpCodecConfigState)
    (hcur : st.current_codec_config_ = some l)
    (hlt : u.codec_type < ext.codecIndexMax)
    (hfind : st.indexed_codecs_ u.codec_type = some d)
    (hne : u.codec_type ≠ l)
    (hsucc : (A2dpCodecConfig.setCodecUserConfig ext scc d u
        d.codec_audio_config_ p true).success = true)
    (hle : (A2dpCodecConfig.setCodecPriority d u.codec_priority).codec_priority_ ≤
        d.codec_priority_) :
    (A2dpCodecs.setCodecUserConfig ext scc st u p).success = true ∧
    (A2dpCodecs.setCodecUserConfig ext scc st u p).state.current_codec_config_ = some l ∧
    (A2dpCodecs.setCodecUserConfig ext scc st u p).restart_input = false ∧
    (A2dpCodecs.setCodecUserConfig ext scc st u p).restart_output = false ∧
    (A2dpCodecs.setCodecUserConfig ext scc st u p).config_updated =
      ((A2dpCodecConfig.setCodecUserConfig ext scc d u d.codec_audio_config_ p true).restart_input ||
       (A2dpCodecConfig.setCodecUserConfig ext scc d u d.codec_audio_config_ p true).restart_output ||
       decide (d.codec_priority_ ≠
         (A2dpCodecConfig.setCodecPriority d u.codec_priority).codec_priority_)) := by
  have hres : resolveTargetCodec ext st u.codec_type = some u.codec_type := by
    unfold resolveTargetCodec
    rw [if_pos hlt, hfind]
  have heq := setCodecUserConfig_success_eq ext scc st u p u.codec_type d hres hfind hsucc
  obtain ⟨hp1, hp2, hp3⟩ :=
    descCall_preserves_priority_fields ext scc d u d.codec_audio_config_ p true
  have hcu := descCall_config_updated ext scc d u d.codec_audio_config_ p true hsucc
  set r := A2dpCodecConfig.setCodecUserConfig ext scc d u d.codec_audio_config_ p true with hr
  have hnew : (A2dpCodecConfig.setCodecPriority r.state u.codec_priority).codec_priority_ =
      (A2dpCodecConfig.setCodecPriority d u.codec_priority).codec_priority_ :=
    setCodecPriority_priority_congr d r.state u.codec_priority hp2 hp3
  have hstep := prioritySelectionStep_noswitch
    (storeIndexed (storeIndexed st.indexed_codecs_ u.codec_type r.state)
      u.codec_type (A2dpCodecConfig.setCodecPriority r.state u.codec_priority))
    l u.codec_type r.state.codec_priority_
    (A2dpCodecConfig.setCodecPriority r.state u.codec_priority).codec_priority_
    r.restart_input r.restart_output r.config_updated hne
    (by rw [hnew, hp1]; exact hle)
  rw [heq]
  simp only [hcur, hstep]
  refine ⟨rfl, rfl, rfl, rfl, ?_⟩
  show (if ((false || false) = true) then true
        else if (r.restart_input || r.restart_output ||
            decide (r.state.codec_priority_ ≠
              (A2dpCodecConfig.setCodecPriority r.state u.codec_priority).codec_priority_)) = true
          then true else r.config_updated) = _
  rw [if_neg (by simp), hcu, hp1, hnew, if_or_force]

/-- A registry with source codec 0 (priority 3001, current) and source
codec 1 (priority 2001). -/
def stC5 : A2dpCodecsState where
  indexed_codecs_ := fun i =>
    if i = 0 then some (mkDesc 0 3001)
    else if i = 1 then some (mkDesc 1 2001)
    else none
  ordered_source_codecs_ := [0, 1]
  ordered_sink_codecs_ := []
  current_codec_config_ := some 0

/-- A user configuration raising codec 1 to priority 4000. -/
def userC5 : BtavCodecConfig := { cfgEmpty with codec_type := 1, codec_priority := 4000 }

/-- Witness for C5: raising a backup codec's priority above the current
codec switches to it, demotes the old current codec to its computed
default (1001 for index 0) and forces all three flags. -/
theorem claim_C5_switch_witness :
    (A2dpCodecs.setCodecUserConfig extTriv sccId stC5 userC5 []).success = true ∧
    (A2dpCodecs.setCodecUserConfig extTriv sccId stC5 userC5 []).state.current_codec_config_ =
      some userC5.codec_type ∧
    codecPriorityIn (A2dpCodecs.setCodecUserConfig extTriv sccId stC5 userC5 []).state.indexed_codecs_ 0 =
      (A2dpCodecConfig.setDefaultCodecPriority (mkDesc 0 3001)).codec_priority_ ∧
    (A2dpCodecs.setCodecUserConfig extTriv sccId stC5 userC5 []).restart_input = true ∧
    (A2dpCodecs.setCodecUserConfig extTriv sccId stC5 userC5 []).restart_output = true ∧
    (A2dpCodecs.setCodecUserConfig extTriv sccId stC5 userC5 []).config_updated = true :=
  claim_C5_switch extTriv sccId stC5 userC5 [] 0 (mkDesc 1 2001) (mkDesc 0 3001)
    (by decide) (by decide) (by decide) (by decide) (by decide) (by decide)
    (by decide) (by decide)

/-- A user configuration lowering codec 1 to priority 1500. -/
def userC6 : BtavCodecConfig := { cfgEmpty with codec_type := 1, codec_priority := 1500 }

/-- Witness for C6: lowering a backup codec's priority keeps the current
selection, clears both restart flags and reports `config_updated` because
the priority changed. -/
theorem claim_C6_backup_priority_witness :
    (A2dpCodecs.setCodecUserConfig extTriv sccId stC5 userC6 []).success = true ∧
    (A2dpCodecs.setCodecUserConfig extTriv sccId stC5 userC6 []).state.current_codec_config_ = some 0 ∧
    (A2dpCodecs.setCodecUserConfig extTriv sccId stC5 userC6 []).restart_input = false ∧
    (A2dpCodecs.setCodecUserConfig extTriv sccId stC5 userC6 []).restart_output = false ∧
    (A2dpCodecs.setCodecUserConfig extTriv sccId stC5 userC6 []).config_updated =
      ((A2dpCodecConfig.setCodecUserConfig extTriv sccId (mkDesc 1 2001) userC6
          (mkDesc 1 2001).codec_audio_config_ [] true).restart_input ||
       (A2dpCodecConfig.setCodecUserConfig extTriv sccId (mkDesc 1 2001) userC6
          (mkDesc 1 2001).codec_audio_config_ [] true).restart_output ||
       decide ((mkDesc 1 2001).codec_priority_ ≠
         (A2dpCodecConfig.setCodecPriority (mkDesc 1 2001) userC6.codec_priority).codec_priority_)) :=
  claim_C6_backup_priority extTriv sccId stC5 userC6 [] 0 (mkDesc 1 2001)
    (by decide) (by decide) (by decide) (by decide) (by decide) (by decide)

/-- Every path of `setCodecOtaConfig` either succeeds or returns with the
current codec selection restored to its pre-call value. -/
theorem setCodecOtaConfig_current_restored (ext : A2dpExt) (scc : SetCodecConfigModel)
    (st : A2dpCodecsState) (buf : List Nat) :
    (A2dpCodecs.setCodecOtaConfig ext scc st buf).success = true ∨
    (A2dpCodecs.setCodecOtaConfig ext scc st buf).state.current_codec_config_ =
      st.current_codec_config_ := by
  simp only [A2dpCodecs.setCodecOtaConfig]
  split
  · right; rfl
  · split
    · right; rfl
    · split
      · right; rfl
      · split
        · right; rfl
        · split
          · right; rfl
          · left; rfl

/-- Claim C4: a peer OTA configuration is rejected — returning false with
the pre-call current codec — whenever the current codec's user config is
non-empty or the matching enabled descriptor's user config is non-empty;
and on every failure path of `setCodecOtaConfig` the current codec
selection is restored to its pre-call value. -/
theorem claim_C4_ota_rejection (ext : A2dpExt) (scc : SetCodecConfigModel)
    (st : A2dpCodecsState) (buf : List Nat) :
    ((∃ c dc, st.current_codec_config_ = some c ∧ st.indexed_codecs_ c = some dc ∧
        A2dpCodecConfig.isCodecConfigEmpty dc.codec_user_config_ = false) ∨
     (∃ d, st.indexed_codecs_ (A2DP_SourceCodecIndex ext buf) = some d ∧
        A2dpCodecConfig.isCodecConfigEmpty d.codec_user_config_ = false) →
      (A2dpCodecs.setCodecOtaConfig ext scc st buf).success = false ∧
      (A2dpCodecs.setCodecOtaConfig ext scc st buf).state.current_codec_config_ =
        st.current_codec_config_) ∧
    ((A2dpCodecs.setCodecOtaConfig ext scc st buf).success = false →
      (A2dpCodecs.setCodecOtaConfig ext scc st buf).state.current_codec_config_ =
        st.current_codec_config_) := by
  constructor
  · intro hblock
    rcases hblock with ⟨c, dc, hc, hdc, hne⟩ | ⟨d, hd, hne⟩
    · have hcub : (match st.current_codec_config_ with
          | some c =>
            match st.indexed_codecs_ c with
            | some dc => ! A2dpCodecConfig.isCodecConfigEmpty dc.codec_user_config_
            | none => false
          | none => false) = true := by
        simp [hc, hdc, hne]
      simp only [A2dpCodecs.setCodecOtaConfig]
      simp [hcub]
    · by_cases hcub : (match st.current_codec_config_ with
          | some c =>
            match st.indexed_codecs_ c with
            | some dc => ! A2dpCodecConfig.isCodecConfigEmpty dc.codec_user_config_
            | none => false
          | none => false) = true
      · simp only [A2dpCodecs.setCodecOtaConfig]
        simp [hcub]
      · by_cases hct : A2DP_SourceCodecIndex ext buf = ext.codecIndexMax
        · simp only [A2dpCodecs.setCodecOtaConfig]
          simp [hcub, hct]
        · simp only [A2dpCodecs.setCodecOtaConfig]
          simp [hcub, hct, hd, hne]
  · intro hf
    rcases setCodecOtaConfig_current_restored ext scc st buf with hs | hc
    · rw [hf] at hs; cases hs
    · exact hc

/-- A descriptor with an explicit (non-empty) user configuration. -/
def descUser : A2dpCodecConfigState :=
  { mkDesc 0 1001 with codec_user_config_ := { cfgEmpty with sample_rate := 1 } }

/-- A registry whose current codec carries a non-empty user config. -/
def stC4 : A2dpCodecsState where
  indexed_codecs_ := fun i => if i = 0 then some descUser else none
  ordered_source_codecs_ := [0]
  ordered_sink_codecs_ := []
  current_codec_config_ := some 0

/-- Witness for C4: a peer OTA buffer is rejected while the current
codec's user configuration is non-empty, leaving the selection intact. -/
theorem claim_C4_ota_rejection_witness :
    (A2dpCodecs.setCodecOtaConfig extTriv sccId stC4 []).success = false ∧
    (A2dpCodecs.setCodecOtaConfig extTriv sccId stC4 []).state.current_codec_config_ =
      stC4.current_codec_config_ :=
  (claim_C4_ota_rejection extTriv sccId stC4 []).1
    (Or.inl ⟨0, descUser, by decide, by decide, by decide⟩)
